import Mathlib

/-!
Verification of the AI-Prompt-Refinement backend (Backend/main.py).

The Python source is shallowly embedded: pure helpers become Lean functions
over `String`/`List Char`, the Gemini provider is modelled as an oracle that
supplies a queue of responses and records every prompt it is called with,
Python exceptions become an `Except` error channel, and the in-memory user
store becomes explicit state passing.  Python string primitives
(`str.strip`, `str.split`, `str.replace`, `str.startswith`) are
re-implemented on `List Char` restricted to ASCII whitespace.

The large category templates are transcribed as lists of `Piece`s: their
literal text chunks in order, split exactly at the `{{user_input}}` marker
occurrences (and long chunks further split), so that facts about them can be
established by chunk-local computation plus structural lemmas.
-/

set_option maxRecDepth 8000

namespace PromptRefinement

/-! ## Python string primitives on `List Char` -/

/-- Characters treated as whitespace by Python `str.strip()` (ASCII range). -/
def isPySpace (c : Char) : Bool :=
  c = ' ' || c = '\t' || c = '\n' || c = '\x0b' || c = '\x0c' || c = '\r'

/-- Remove trailing whitespace, as Python `str.rstrip()`. -/
def stripEnd : List Char → List Char
  | [] => []
  | c :: cs =>
    match stripEnd cs with
    | [] => if isPySpace c then [] else [c]
    | d :: r => c :: d :: r

/-- Remove leading and trailing whitespace, as Python `str.strip()`. -/
def pyStrip (l : List Char) : List Char :=
  stripEnd (l.dropWhile isPySpace)

/-- `String`-level version of `pyStrip`. -/
def pyStripS (s : String) : String :=
  String.mk (pyStrip s.data)

/-- Split on newline characters, as Python `str.split('\n')`:
keeps empty segments, and the empty input yields one empty segment. -/
def splitOnNL : List Char → List (List Char)
  | [] => [[]]
  | c :: rest =>
    match splitOnNL rest with
    | [] => [[c]]
    | l :: ls => if c = '\n' then [] :: l :: ls else (c :: l) :: ls

/-- Count occurrences of a character. -/
def countCh (a : Char) : List Char → Nat
  | [] => 0
  | c :: cs => (if c = a then 1 else 0) + countCh a cs

/-- `pat` occurs as a contiguous substring of `s`. -/
def Substr (pat s : List Char) : Prop :=
  ∃ l r, s = l ++ pat ++ r

/-- The scan of Python `str.replace`, with `fuel` bounding the number of
scan steps; at each position, if `pat` matches, emit `rep` and skip past the
match, else keep the character.  Used with `fuel = s.length`, which is
enough when `pat` is nonempty. -/
def replaceAux (pat rep : List Char) : Nat → List Char → List Char
  | _, [] => []
  | 0, s => s
  | fuel + 1, c :: cs =>
    if pat.isPrefixOf (c :: cs) then
      rep ++ replaceAux pat rep fuel (List.drop pat.length (c :: cs))
    else
      c :: replaceAux pat rep fuel cs

/-- Count of the (leftmost, non-overlapping) occurrences of `pat` replaced
by the `replaceAux` scan, with the same fuel discipline. -/
def countOccurAux (pat : List Char) : Nat → List Char → Nat
  | _, [] => 0
  | 0, _ => 0
  | fuel + 1, c :: cs =>
    if pat.isPrefixOf (c :: cs) then
      1 + countOccurAux pat fuel (List.drop pat.length (c :: cs))
    else
      countOccurAux pat fuel cs

/-- Python `s.replace(pat, rep)` on `List Char`, for nonempty `pat`
(every call site in the source uses the literal nonempty marker). -/
def replaceL (pat rep s : List Char) : List Char :=
  replaceAux pat rep s.length s

/-- Non-overlapping occurrence count of `pat` in `s`, matching the
replacement scan of Python `str.replace`. -/
def countOccurL (pat s : List Char) : Nat :=
  countOccurAux pat s.length s

/-- Python `s.replace(pat, rep)` at `String` level. -/
def pyReplace (s pat rep : String) : String :=
  String.mk (replaceL pat.data rep.data s.data)

/-- The opening and closing brace characters (written escaped). -/
def openBraceCh : Char := '\x7b'

/-- See `openBraceCh`. -/
def closeBraceCh : Char := '\x7d'

/-! ## Template pieces -/

/-- The `{{user_input}}` substitution marker (braces written escaped). -/
def userInputMarker : String := "\x7b\x7buser_input\x7d\x7d"

/-- A piece of a template: a literal text chunk, or one occurrence of the
substitution marker. -/
inductive Piece where
  | lit (s : String)
  | mark
deriving DecidableEq, Repr

/-- Concatenate the pieces back into the template text. -/
def assemble : List Piece → List Char
  | [] => []
  | .lit s :: rest => s.data ++ assemble rest
  | .mark :: rest => userInputMarker.data ++ assemble rest

/-- Concatenate the pieces with `rep` substituted for every marker. -/
def substPieces (rep : List Char) : List Piece → List Char
  | [] => []
  | .lit s :: rest => s.data ++ substPieces rep rest
  | .mark :: rest => rep ++ substPieces rep rest

/-- Every literal chunk is free of brace characters. -/
def piecesWellFormed (ps : List Piece) : Bool :=
  ps.all fun p =>
    match p with
    | .lit s => countCh openBraceCh s.data = 0 && countCh closeBraceCh s.data = 0
    | .mark => true

/-- Number of marker occurrences among the pieces. -/
def markCount : List Piece → Nat
  | [] => 0
  | .lit _ :: rest => markCount rest
  | .mark :: rest => 1 + markCount rest

/-! ## Data model -/

/-- One entry of the category registry: the `{id, label, template}`
dictionaries in Backend/main.py. -/
structure PromptCategory where
  id : String
  label : String
  template : String
deriving DecidableEq, Repr

/-- Pieces of the "writing" category template, transcribed verbatim from Backend/main.py and split at the substitution-marker occurrences (long chunks further split for tractable evaluation). -/
def writing_pieces : List Piece := [
  .lit "You are a world-renowned prompt engineer specializing in crafting exceptional writing prompts. Your task is to meticulously transform the user\x27s raw, informal, or vague input into a highly detailed, clear, and structured prompt. This refined prompt must guide an AI to generate superior quality written content. It should explicitly define or infer: 1. **Content Goal/Purpose:** What should the writing achieve? 2. **Topic & Core Message:** Specific subject matter and key takeaways. 3. **Target Audience:** Demographics, knowledge level, and expecta",
  .lit "tions. 4. **Style & Voice:** (e.g., formal, academic, witty, persuasive, narrative, technical). 5. **Tone:** (e.g., optimistic, critical, empathetic, urgent, humorous). 6. **Format:** (e.g., blog post, essay, script, email, advertisement, technical paper, story). Include structural elements like headings, sections, or specific content blocks if applicable. 7. **Length/Word Count:** (e.g., concise paragraph, 500-word article, multi-page report). 8. **Keywords/SEO:** (If applicable, list primary and secondary keywords). 9. **Specific Inclusions/E",
  .lit "xclusions:** Any must-have points, data, or elements to avoid. 10. **Call to Action:** (If relevant). Analyze the ",
  .mark,
  .lit " and construct the most effective prompt possible, filling in any missing details with expert assumptions aligned with producing high-quality content. Provide only the final refined prompt as the output, without any explanations or extra text. Input: ",
  .mark
]

/-- The "writing" category template (concatenation of its pieces). -/
def writing_template : String := String.mk (assemble writing_pieces)

/-- Pieces of the "ideation" category template, transcribed verbatim from Backend/main.py and split at the substitution-marker occurrences (long chunks further split for tractable evaluation). -/
def ideation_pieces : List Piece := [
  .lit "You are a master prompt engineer acclaimed for catalyzing groundbreaking idea generation. Convert the user\x27s input, however informal or nebulous, into a potent and highly creative ideation prompt. This refined prompt must stimulate an AI to produce a diverse set of novel, practical, and insightful ideas. It should clearly specify: 1. **Domain/Context:** The specific area or field for ideation (e.g., technology, marketing, education). 2. **Core Objective/Problem:** The central goal or challenge the ideas should address. 3. **Desired Number of Id",
  .lit "eas:** A target quantity (e.g., 5 distinct concepts, 20 variations). 4. **Key Criteria for Ideas:** (e.g., novelty, feasibility, impact, cost-effectiveness, sustainability). 5. **Stimuli/Inspiration Points:** (Optional: suggest related concepts, analogies, or starting points if beneficial). 6. **Constraints/Boundaries:** Any limitations or factors that must be considered (e.g., budget, time, technology). 7. **Output Format:** (e.g., list of ideas with brief descriptions, ideas categorized by theme). Your goal is to engineer a prompt that maximi",
  .lit "zes both the breadth (diversity) and depth (ingenuity) of the generated ideas. Provide only the final refined prompt as the output, without any explanations or extra text. Input: ",
  .mark
]

/-- The "ideation" category template (concatenation of its pieces). -/
def ideation_template : String := String.mk (assemble ideation_pieces)

/-- Pieces of the "summarization" category template, transcribed verbatim from Backend/main.py and split at the substitution-marker occurrences (long chunks further split for tractable evaluation). -/
def summarization_pieces : List Piece := [
  .lit "You are an elite prompt engineer specializing in information distillation and summarization. Transform the user\x27s potentially vague input into a precise and effective summarization/extraction prompt. This refined prompt must instruct an AI to accurately and coherently extract key information or synthesize content. It should define: 1. **Source Material Type:** (e.g., article, research paper, conversation, technical document). This may be inferred from the ",
  .mark,
  .lit " if it contains the text. 2. **Summarization Goal:** (e.g., extract key findings, create a concise overview, generate bullet points of main arguments, identify action items). 3. **Level of Detail/Length:** (e.g., one-sentence summary, 3 key bullet points, 200-word abstract, detailed executive summary). 4. **Specific Information to Extract:** (If applicable, e.g., names, dates, locations, definitions, methodologies, conclusions, specific data points). 5. **Tone of Summary:** (e.g., neutral, objective, critical, promotional \u00e2\u20ac\u201c usually neutral fo",
  .lit "r summaries). 6. **Format of Output:** (e.g., narrative paragraph, numbered list, bullet points, table). 7. **Focus:** (e.g., emphasize implications, focus on methodology, highlight discrepancies). Ensure the prompt guides the AI to preserve the core meaning and context of the original information. Provide only the final refined prompt as the output, without any explanations or extra text. Input: ",
  .mark
]

/-- The "summarization" category template (concatenation of its pieces). -/
def summarization_template : String := String.mk (assemble summarization_pieces)

/-- Pieces of the "explanation" category template, transcribed verbatim from Backend/main.py and split at the substitution-marker occurrences (long chunks further split for tractable evaluation). -/
def explanation_pieces : List Piece := [
  .lit "You are a distinguished educational prompt engineer, expert in making complex topics understandable. Convert the user\x27s input, often brief or unclear, into a comprehensive and well-structured prompt for explanation. This refined prompt must guide an AI to deliver a clear, concise, and step-by-step explanation of a given topic, specifically tailored for an audience with little to no prior knowledge. It should include: 1. **Topic to Explain:** Clearly identified from ",
  .mark,
  .lit ". 2. **Target Audience\x27s Assumed Knowledge Level:** (Default to absolute beginner unless specified otherwise). 3. **Depth of Explanation:** (e.g., high-level overview, detailed breakdown, practical application). 4. **Key Concepts to Cover:** Identify and ensure all crucial sub-topics and terminologies are explained. 5. **Structure of Explanation:** (e.g., chronological, cause-and-effect, problem-solution, component-wise). Prefer a logical, step-by-step flow. 6. **Use of Analogies/Examples:** Encourage the use of relatable analogies and practica",
  .lit "l examples to aid comprehension. 7. **Language and Simplicity:** Emphasize the use of simple, accessible language, avoiding jargon where possible or defining it clearly. 8. **Desired Learning Outcome:** What should the audience understand or be able to do after the explanation? The aim is to ensure maximum clarity, comprehension, and engagement for the learner. Provide only the final refined prompt as the output, without any explanations or extra text. Input: ",
  .mark
]

/-- The "explanation" category template (concatenation of its pieces). -/
def explanation_template : String := String.mk (assemble explanation_pieces)

/-- Pieces of the "reasoning" category template, transcribed verbatim from Backend/main.py and split at the substitution-marker occurrences (long chunks further split for tractable evaluation). -/
def reasoning_pieces : List Piece := [
  .lit "You are a preeminent prompt engineer, specializing in logical reasoning and complex problem-solving. Transform the user\x27s informal question or problem statement into a precise and analytical prompt. This refined prompt must guide an AI through a rigorous, step-by-step reasoning process to arrive at a well-justified conclusion or solution. It should clearly articulate: 1. **The Problem/Question:** An unambiguous definition of the issue to be addressed. 2. **Known Information/Data:** List all relevant facts, premises, and data provided in ",
  .mark,
  .lit ". 3. **Assumptions:** Explicitly state any necessary assumptions (or guide the AI to state its assumptions). 4. **Required Steps/Methodology:** (e.g., logical deduction, calculation, comparative analysis, hypothesis testing). Guide the AI to show its work. 5. **Constraints/Rules:** Any rules, limitations, or conditions that must be adhered to. 6. **Desired Output Format:** (e.g., detailed explanation of reasoning, final answer with justification, list of pros and cons, calculated value). 7. **Level of Rigor:** (e.g., informal logical path, form",
  .lit "al proof, detailed quantitative analysis). The prompt must encourage transparency in the reasoning process, making it easy to follow and verify the logical flow and calculations. Provide only the final refined prompt as the output, without any explanations or extra text. Input: ",
  .mark
]

/-- The "reasoning" category template (concatenation of its pieces). -/
def reasoning_template : String := String.mk (assemble reasoning_pieces)

/-- Pieces of the "coding" category template, transcribed verbatim from Backend/main.py and split at the substitution-marker occurrences (long chunks further split for tractable evaluation). -/
def coding_pieces : List Piece := [
  .lit "You are the world\x27s leading prompt engineer for software development and code generation. Convert the user\x27s informal or high-level coding request into an exceptionally specific, detailed, and unambiguous programming prompt. This refined prompt must enable an AI to generate accurate, efficient, and robust code. It must define: 1. **Programming Language(s) & Version(s):** (e.g., Python 3.9, JavaScript ES6). 2. **Core Functionality & Objectives:** Precise description of what the code should do, including inputs and expected outputs. 3. **Specific",
  .lit " Algorithms/Logic:** (If known or preferred, otherwise allow AI to select optimally). 4. **Data Structures:** (e.g., arrays, dictionaries, custom classes). 5. **Key Libraries/Frameworks/APIs:** Specify any to be used or avoided. 6. **Error Handling & Edge Cases:** Describe how errors should be managed and specific edge cases to consider. 7. **Performance Considerations:** (e.g., efficiency, memory usage, speed). 8. **Code Style & Conventions:** (e.g., PEP 8 for Python, specific naming conventions, comments). 9. **Examples:** Provide clear input",
  .lit "/output examples if possible. 10. **Modularity/Structure:** (e.g., functions, classes, modules). 11. **Constraints & Limitations:** Any restrictions on libraries, resources, or environment. Ensure the prompt minimizes ambiguity to facilitate the generation of production-quality code. Provide only the final refined prompt as the output, without any explanations or extra text. Input: ",
  .mark
]

/-- The "coding" category template (concatenation of its pieces). -/
def coding_template : String := String.mk (assemble coding_pieces)

/-- Pieces of the "data_analysis" category template, transcribed verbatim from Backend/main.py and split at the substitution-marker occurrences (long chunks further split for tractable evaluation). -/
def data_analysis_pieces : List Piece := [
  .lit "You are a premier prompt engineer for data analysis, skilled at translating vague requests into precise analytical tasks. Rewrite the user\x27s unclear or partial request into a comprehensive and specific data analysis prompt. This refined prompt must guide an AI to perform accurate data analysis and generate insightful outputs. It should clearly state: 1. **Analytical Goal/Objective:** What questions need to be answered? What insights are sought? 2. **Data Description:** (If data is provided in ",
  .mark,
  .lit " or described) Nature of the data (e.g., CSV, JSON, database table), key variables/columns, and their types. 3. **Data Source:** (If applicable, e.g., specific file, API endpoint, database). 4. **Specific Tasks:** (e.g., data cleaning, transformation, statistical summary, hypothesis testing, predictive modeling, visualization). 5. **Methods/Techniques:** (If specific methods are required, e.g., regression analysis, clustering, time series forecasting). 6. **Metrics/Calculations:** Define any specific metrics, formulas, or calculations to be per",
  .lit "formed. 7. **Desired Output Format:** (e.g., textual summary of findings, tables, charts (specify type), code for queries (SQL, Python/Pandas), model parameters). 8. **Assumptions for Analysis:** Clarify any assumptions to be made about the data or context. The prompt should enable the AI to execute the analysis methodically and present results clearly. Provide only the final refined prompt as the output, without any explanations or extra text. Input: ",
  .mark
]

/-- The "data_analysis" category template (concatenation of its pieces). -/
def data_analysis_template : String := String.mk (assemble data_analysis_pieces)

/-- Pieces of the "language" category template, transcribed verbatim from Backend/main.py and split at the substitution-marker occurrences (long chunks further split for tractable evaluation). -/
def language_pieces : List Piece := [
  .lit "You are a distinguished linguistic prompt engineer, adept at handling nuanced language tasks. Convert the user\x27s casual translation, style, or grammar request into a highly precise and context-aware linguistic prompt. This refined prompt must guide an AI to perform tasks like translation, localization, style transformation, or grammatical correction with high fidelity. It should specify: 1. **Task Type:** (e.g., translation, localization, proofreading, style adaptation, paraphrasing, sentiment adjustment). 2. **Source Language & Target Language",
  .lit ":** (For translation/localization, including dialects if relevant). 3. **Content for Processing:** The specific text to be worked on, derived from ",
  .mark,
  .lit ". 4. **Desired Tone/Style:** (e.g., formal, informal, academic, technical, literary, conversational, humorous). 5. **Formality Level:** (e.g., T-V distinction in relevant languages). 6. **Target Audience:** Who is the output for? This influences vocabulary, style, and cultural references. 7. **Specific Vocabulary/Terminology:** Any domain-specific terms, jargon, or glossaries to use or avoid. 8. **Cultural Nuances/Localization Needs:** (e.g., adapting idioms, date formats, measurements). 9. **Emphasis:** (e.g., prioritize literal accuracy vs. n",
  .lit "atural fluency, preserve original author\x27s voice). Ensure the prompt leads to linguistically accurate and contextually appropriate output. Provide only the final refined prompt as the output, without any explanations or extra text. Input: ",
  .mark
]

/-- The "language" category template (concatenation of its pieces). -/
def language_template : String := String.mk (assemble language_pieces)

/-- Pieces of the "roleplay" category template, transcribed verbatim from Backend/main.py and split at the substitution-marker occurrences (long chunks further split for tractable evaluation). -/
def roleplay_pieces : List Piece := [
  .lit "You are a master prompt engineer for creating deeply immersive and engaging roleplay and simulation experiences. Transform the user\x27s vague or simple input into a rich, detailed, and compelling prompt that sets the stage for an AI. This refined prompt must define: 1. **Scenario/Setting:** A vivid description of the environment, time period, and context. 2. **User\x27s Role:** Clearly define who the user is in this scenario. 3. **AI\x27s Role(s)/Persona(s):** Detailed character description(s) for the AI, including personality, motivations, knowledge, ",
  .lit "and relationship to the user\x27s role. 4. **Core Objective(s)/Goal(s):** What should the user and/or AI try to achieve in the simulation/roleplay? 5. **Opening Situation:** How does the interaction begin? 6. **Tone & Atmosphere:** (e.g., serious, adventurous, mysterious, comedic, suspenseful). 7. **Rules of Engagement/Boundaries:** Any specific rules, constraints, or limitations for the interaction (e.g., no violence, specific information AI should not know). 8. **Key Information/Lore:** Essential background details the AI needs to embody its rol",
  .lit "e effectively. 9. **Desired Interaction Style:** (e.g., narrative, dialogue-driven, choice-based). The goal is to create a dynamic and believable simulation that allows for meaningful interaction and exploration. Provide only the final refined prompt as the output, without any explanations or extra text. Input: ",
  .mark
]

/-- The "roleplay" category template (concatenation of its pieces). -/
def roleplay_template : String := String.mk (assemble roleplay_pieces)

/-- Pieces of the "research" category template, transcribed verbatim from Backend/main.py and split at the substitution-marker occurrences (long chunks further split for tractable evaluation). -/
def research_pieces : List Piece := [
  .lit "You are a leading prompt engineer specializing in academic and professional research and report generation. Rewrite the user\x27s informal query or topic idea into a meticulously structured and comprehensive research prompt. This refined prompt must guide an AI to gather, synthesize, and present information in a scholarly or professional manner. It should specify: 1. **Research Topic/Question(s):** Clearly defined scope and central research questions. 2. **Report Type/Objective:** (e.g., literature review, market analysis, technical report, case s",
  .lit "tudy, white paper, systematic review). 3. **Depth of Research:** (e.g., overview, comprehensive analysis, in-depth investigation). 4. **Key Areas/Subtopics to Cover:** Outline the main sections or themes to be addressed. 5. **Information Sources (Preferred/To Avoid):** (e.g., peer-reviewed journals, industry reports, specific databases, avoid blogs). 6. **Methodology (if applicable):** (e.g., qualitative synthesis, quantitative summary, comparative analysis). 7. **Formatting Style:** (e.g., APA, MLA, Chicago, specific corporate template guideli",
  .lit "nes). 8. **Tone and Voice:** (e.g., objective, analytical, persuasive, informative). 9. **Requirement for Citations/References:** Specify if and how sources should be cited. 10. **Length/Structure:** Desired length, sections, and organization of the report. 11. **Critical Analysis Level:** (e.g., descriptive, evaluative, critical). The prompt should empower the AI to produce a well-researched, well-structured, and credible output. Provide only the final refined prompt as the output, without any explanations or extra text. Input: ",
  .mark
]

/-- The "research" category template (concatenation of its pieces). -/
def research_template : String := String.mk (assemble research_pieces)

/-- Pieces of the "productivity" category template, transcribed verbatim from Backend/main.py and split at the substitution-marker occurrences (long chunks further split for tractable evaluation). -/
def productivity_pieces : List Piece := [
  .lit "You are a highly sought-after prompt engineer renowned for optimizing productivity and strategic planning. Convert the user\x27s casual goals or planning needs into a precise, actionable, and context-aware prompt. This refined prompt must guide an AI to generate clear plans, schedules, task breakdowns, or productivity strategies tailored to the user\x27s situation. It should define: 1. **Overall Goal/Objective:** What does the user want to achieve? 2. **Context/Situation:** Relevant background information (e.g., project type, personal goal, team size",
  .lit ", available resources). 3. **Specific Deliverable Needed:** (e.g., detailed project plan, weekly schedule, prioritized to-do list, meeting agenda, decision-making framework). 4. **Timeline/Deadlines:** Any critical start dates, end dates, or milestones. 5. **Key Tasks/Activities (if known):** Initial list of tasks to be organized or expanded upon. 6. **Prioritization Criteria:** How should tasks be prioritized (e.g., urgency, impact, effort)? 7. **Resource Allocation:** (If applicable, e.g., time, budget, personnel). 8. **Dependencies:** Are th",
  .lit "ere tasks that depend on others? 9. **Format of Plan/Output:** (e.g., Gantt chart outline, Kanban board structure, bulleted list with assignments, calendar entries). 10. **Success Metrics:** How will the success of the plan be measured? The prompt must result in a practical, organized, and effective tool for enhancing productivity. Provide only the final refined prompt as the output, without any explanations or extra text. Input: ",
  .mark
]

/-- The "productivity" category template (concatenation of its pieces). -/
def productivity_template : String := String.mk (assemble productivity_pieces)

/-- Pieces of the "visual_generation" category template, transcribed verbatim from Backend/main.py and split at the substitution-marker occurrences (long chunks further split for tractable evaluation). -/
def visual_generation_pieces : List Piece := [
  .lit "You are the world\x27s foremost prompt engineer for visual and media content generation, possessing an unparalleled eye for detail and artistic nuance. Transform the user\x27s rough idea or concept into an extraordinarily rich, evocative, and technically detailed prompt for an AI image/media generator. This refined prompt must provide comprehensive guidance to achieve a specific visual output. It should meticulously detail: 1. **Primary Subject(s):** Clear description, including characteristics, actions, emotions, and attire. 2. **Artistic Style:** (",
  .lit "e.g., photorealistic, impressionistic, surreal, anime, concept art, specific artist\x27s style like Van Gogh or Ansel Adams). 3. **Composition & Framing:** (e.g., close-up, wide shot, rule of thirds, bird\x27s-eye view, leading lines, depth of field). 4. **Lighting:** (e.g., softbox, cinematic lighting, golden hour, volumetric, neon, dark and moody). 5. **Color Palette:** (e.g., vibrant, monochromatic, pastel, sepia, specific color harmonies). 6. **Mood & Atmosphere:** (e.g., serene, chaotic, futuristic, nostalgic, eerie, joyful). 7. **Background/Env",
  .lit "ironment:** Detailed description of the setting, including location, objects, and weather. 8. **Level of Detail & Realism:** (e.g., highly detailed, sketchy, 4K, 8K, hyperrealistic). 9. **Camera & Lens Effects:** (e.g., fisheye lens, bokeh, motion blur, shallow depth of field, specific camera angle). 10. **Artistic Influences/References:** (Optional: mention specific artworks, films, or movements as inspiration). 11. **Negative Prompts (What to Avoid):** Specify elements, styles, or qualities to exclude. 12. **Aspect Ratio:** (e.g., 16:9, 1:1, ",
  .lit "9:16). The goal is to leave no room for ambiguity, ensuring the AI can render the user\x27s vision with stunning accuracy and creativity. Provide only the final refined prompt as the output, without any explanations or extra text. Input: ",
  .mark
]

/-- The "visual_generation" category template (concatenation of its pieces). -/
def visual_generation_template : String := String.mk (assemble visual_generation_pieces)

/-- Pieces of the "expert_domains" category template, transcribed verbatim from Backend/main.py and split at the substitution-marker occurrences (long chunks further split for tractable evaluation). -/
def expert_domains_pieces : List Piece := [
  .lit "You are a highly specialized prompt engineer with deep expertise in crafting prompts for critical expert domains such as law, medicine, finance, and engineering. Convert the user\x27s vague, casual, or incomplete input into a precise, context-aware, and responsible prompt suitable for AI-assisted content generation in these sensitive fields. The refined prompt must carefully define: 1. **Specific Domain:** (e.g., contract law, cardiology, financial forecasting, structural engineering). 2. **Nature of Request:** (e.g., information retrieval, docume",
  .lit "nt drafting, analysis of a specific case (hypothetical if needed), explanation of a concept). 3. **Jurisdiction/Regulatory Context:** (Crucial for legal, financial, and medical prompts, e.g., \x27US federal law\x27, \x27EMA guidelines\x27, \x27GAAP principles\x27). 4. **Required Level of Detail & Formality:** (e.g., layperson summary, expert-to-expert communication, formal report). 5. **Key Terminology & Concepts:** Ensure accurate use and, if necessary, definition of domain-specific terms. 6. **Information to Include/Consider:** Specific facts, parameters, vari",
  .lit "ables, or sections that must be addressed. 7. **Information to Exclude/Disclaimers:** What should be explicitly avoided? Crucially, include a directive for the AI to add standard disclaimers about its non-human status and the information not being professional advice (e.g., \x27This is not legal/medical advice\x27). 8. **Audience for the Output:** (e.g., lawyer, patient, student, investor). 9. **Ethical Considerations:** (e.g., for medical: patient privacy/anonymization principles even with hypothetical data; for legal: avoiding unauthorized practice",
  .lit " of law). 10. **Desired Output Format:** (e.g., structured report, Q&A, clause for a document). Prioritize accuracy, safety, and ethical responsibility in the construction of this prompt. Provide only the final refined prompt as the output, without any explanations or extra text. Input: ",
  .mark
]

/-- The "expert_domains" category template (concatenation of its pieces). -/
def expert_domains_template : String := String.mk (assemble expert_domains_pieces)

/-- Pieces of the "meta_prompting" category template, transcribed verbatim from Backend/main.py and split at the substitution-marker occurrences (long chunks further split for tractable evaluation). -/
def meta_prompting_pieces : List Piece := [
  .lit "You are the ultimate Meta-Prompt Architect, a distinguished AI prompt engineer capable of elevating any prompt to its maximum potential. Your mission is to meticulously analyze the ",
  .mark,
  .lit ", which may be an informal idea, a vague request, or an existing underperforming prompt. Transform it into a highly detailed, structured, and optimized Master Prompt. This Master Prompt must be engineered to elicit the highest quality, most accurate, and most nuanced response from a target AI. Your refined prompt should explicitly incorporate or instruct the inclusion of: 1. **Clear Objective & Purpose:** What is the ultimate goal of the target AI\x27s output? 2. **Comprehensive Context:** All necessary background information, assumptions, and sit",
  .lit "uational details. 3. **Precise Role & Persona for AI:** Define the expertise, voice, and character the target AI should adopt. 4. **Target Audience for AI\x27s Output:** Specify who the AI\x27s response is for. 5. **Detailed Output Format & Structure:** Specify the desired layout, style, length, and any formatting requirements (e.g., Markdown, JSON, specific sections). 6. **Key Elements to Include/Address:** Essential information, arguments, data points, or questions to cover. 7. **Constraints & Boundaries:** What should the AI avoid (topics, opinion",
  .lit "s, styles, specific words)? Define limitations. 8. **Tone & Style Requirements:** Specify the desired linguistic style (e.g., formal, persuasive, empathetic, technical). 9. **Evaluation Criteria (Implicit or Explicit):** What makes a good response in this context? 10. **Advanced Prompting Techniques (as applicable):** Consider incorporating elements like Chain-of-Thought (CoT) cues, few-shot examples (if derivable or if ",
  .mark,
  .lit " hints at needing them), instruction for step-by-step reasoning, or asking the AI to self-critique/improve its own output. 11. **Action Verbs & Unambiguous Language:** Ensure the prompt uses clear, direct language. Your output is *only* the refined Master Prompt, ready to be used. Do not include any of your own reasoning, explanations, or conversational text. \n\nUser Input: ",
  .mark,
  .lit "\n\nRefined Prompt:"
]

/-- The "meta_prompting" category template (concatenation of its pieces). -/
def meta_prompting_template : String := String.mk (assemble meta_prompting_pieces)

/-- Pieces of the default (fallback) category template, transcribed verbatim from Backend/main.py and split at the substitution-marker occurrences (long chunks further split for tractable evaluation). -/
def default_pieces : List Piece := [
  .lit "You are the world\x27s best prompt engineer assistant. Transform any unclear or informal prompt into a detailed, optimized version that adds context, format, tone, constraints, and purpose to maximize AI quality.\n\nUser Input: ",
  .mark,
  .lit "\n\nRefined Prompt:"
]

/-- The default (fallback) category template (concatenation of its pieces). -/
def default_template : String := String.mk (assemble default_pieces)

/-- The ordered registry of prompt categories (`prompt_categories` in Backend/main.py). -/
def prompt_categories : List PromptCategory := [
  ⟨"writing", "Writing & Content Creation", writing_template⟩,
  ⟨"ideation", "Ideation & Brainstorming", ideation_template⟩,
  ⟨"summarization", "Summarization & Extraction", summarization_template⟩,
  ⟨"explanation", "Explanation & Tutoring", explanation_template⟩,
  ⟨"reasoning", "Problem Solving & Reasoning", reasoning_template⟩,
  ⟨"coding", "Code & Development", coding_template⟩,
  ⟨"data_analysis", "Data & Analysis", data_analysis_template⟩,
  ⟨"language", "Translation & Language", language_template⟩,
  ⟨"roleplay", "Roleplay & Simulation", roleplay_template⟩,
  ⟨"research", "Research & Reports", research_template⟩,
  ⟨"productivity", "Productivity & Planning", productivity_template⟩,
  ⟨"visual_generation", "Image/Media Generation", visual_generation_template⟩,
  ⟨"expert_domains", "Legal, Medical, and Expert Domains", expert_domains_template⟩,
  ⟨"meta_prompting", "Meta-Prompts (Prompt Refinement & Generation)", meta_prompting_template⟩
]

/-- The fallback category used when no registered id matches (`default_prompt_category` in Backend/main.py). -/
def default_prompt_category : PromptCategory :=
  ⟨"meta_prompting", "Meta-Prompts (Prompt Refinement & Generation)", default_template⟩

/-- The sentinel id for the "Please select a category" option. -/
def NO_SELECTION_CATEGORY_ID : String := "please_select"

/-- The meta-prompt built by `modify_prompt_with_user_input` (f-string transcribed from Backend/main.py). -/
def modification_prompt_text (current_refined_prompt user_modification_instructions original_task_for_context original_category_label_for_context : String) : String :=
  "\n    You are an exceptionally skilled **AI Prompt Engineer and LLM Trainer**. Your primary goal is to meticulously refine and adapt existing prompts based on precise user instructions, ensuring optimal performance and clarity for subsequent AI interactions.\n\n    **Original Context for Reference (Do NOT modify these):**\n    * **Initial Task:** \"" ++ original_task_for_context ++ "\"\n    * **Task Category:** \"" ++ original_category_label_for_context ++ "\"\n\n    **Your Core Task:**\n    Carefully analyze the \x27CURRENT REFINED PROMPT\x27 provided below. Then, apply the \x27USER MODIFICATION INSTRUCTIONS\x27 to generate a **single, new, highly refined prompt**.\n\n    **Crucial Constraints & Requirements:**\n    1.  **Output Format:** Your output *must be exclusively the modified prompt string*. Do not include any conversational filler, introductory phrases (e.g., \"Here is your modified prompt:\"), concluding remarks, or any other extraneous text.\n    2.  **Strict Adherence:** Adhere *strictly* to all aspects of the \x27USER MODIFICATION INSTRUCTIONS\x27. If an instruction seems ambiguous, interpret it in a way that minimizes ambiguity and maximizes the utility of the prompt for an AI.\n    3.  **Preservation of Core Intent:** While modifying, ensure the core objective and original intent of the \x27CURRENT REFINED PROMPT\x27 are preserved unless explicitly contradicted by the modification instructions.\n    4.  **Clarity & Conciseness:** The final prompt should be as clear, unambiguous, and concise as possible, optimizing it for direct interaction with an LLM. Avoid redundancy.\n    5.  **No Explanations:** Do not explain your changes or thought process. Simply output the final prompt.\n    6.  **Error Handling (Implicit):** If the \x27USER MODIFICATION INSTRUCTIONS\x27 are illogical or impossible to apply without breaking the prompt\x27s functionality, generate the most sensible prompt possible while maintaining utility. Do not generate an error message.\n\n    ---\n    **CURRENT REFINED PROMPT (for modification):**\n    " ++ current_refined_prompt ++ "\n\n    ---\n    **USER MODIFICATION INSTRUCTIONS (to apply):**\n    " ++ user_modification_instructions ++ "\n\n    ---\n    **MODIFIED PROMPT (Your output starts here - ONLY the prompt string):**\n    "

/-- The explanation meta-prompt built inside `get_ai_explanation_and_suggestions`. -/
def explanation_prompt_text (generated_prompt original_task category_label : String) : String :=
  "\n    You are an expert prompt engineer.\n    Explain why the following prompt was generated in this way, considering the original user task: \"" ++ original_task ++ "\" and the category: \"" ++ category_label ++ "\".\n    Highlight the key elements added or modified to make the prompt more effective for an AI.\n    Provide only the explanation as a concise bulleted list with a maximum of 3-4 key points, starting each point with an asterisk (*). Do not include any introductory or concluding sentences.\n\n    Generated Prompt:\n    " ++ generated_prompt ++ "\n    "

/-- The suggestion meta-prompt built inside `get_ai_explanation_and_suggestions` (the category label is in scope in the source but unused by this f-string). -/
def suggestion_prompt_text (generated_prompt original_task _category_label : String) : String :=
  "\n    You are an expert prompt engineer.\n    Based on the following generated prompt and the original user task: \"" ++ original_task ++ "\", suggest 2-3 actionable ways the user could have phrased their initial request to potentially get an even better or more directly relevant prompt in the future.\n    Provide only the suggestions as a concise bulleted list, starting each point with an asterisk (*). Do not include any introductory or concluding sentences.\n\n    Generated Prompt:\n    " ++ generated_prompt ++ "\n    "

/-! ## Registry lookup and prompt compilation -/

/-- `get_prompt_category` in Backend/main.py: first registry entry whose id
matches, else the default category.  Total: it never fails. -/
def get_prompt_category (category_id : String) : PromptCategory :=
  match prompt_categories.find? (fun category => category.id = category_id) with
  | some category => category
  | none => default_prompt_category

/-- `get_category_prompt` in Backend/main.py: substitute the user input for
the marker in the looked-up template (Python `str.replace`). -/
def get_category_prompt (category_id : String) (user_input : String) : String :=
  pyReplace (get_prompt_category category_id).template userInputMarker user_input

/-! ## Bullet-list parser -/

/-- One iteration of the parsing loop in `parse_bullet_list`: trim the line;
a line starting with "* " contributes the trimmed remainder, any other
non-empty trimmed line contributes itself, empty lines contribute nothing. -/
def lineItem (line : List Char) : Option (List Char) :=
  let stripped_line := pyStrip line
  if ("* ".data).isPrefixOf stripped_line then
    some (pyStrip (stripped_line.drop 2))
  else if stripped_line ≠ [] then
    some stripped_line
  else
    none

/-- The accumulated items of the parsing loop over a list of lines. -/
def itemsOf (lines : List (List Char)) : List (List Char) :=
  lines.filterMap lineItem

/-- `parse_bullet_list` in Backend/main.py. -/
def parse_bullet_list (text_content : String) : List String :=
  if text_content = "" then []
  else
    let lines := splitOnNL (pyStrip text_content.data)
    let parsed_items := itemsOf lines
    if parsed_items ≠ [] then parsed_items.map String.mk
    else [String.mk (pyStrip text_content.data)]

/-- The chunks of the "writing" category template contain no brace characters. -/
theorem writing_wf : piecesWellFormed writing_pieces = true := by decide

/-- Number of substitution markers in the "writing" category template. -/
theorem writing_marks : markCount writing_pieces = 2 := by decide

/-- The chunks of the "ideation" category template contain no brace characters. -/
theorem ideation_wf : piecesWellFormed ideation_pieces = true := by decide

/-- Number of substitution markers in the "ideation" category template. -/
theorem ideation_marks : markCount ideation_pieces = 1 := by decide

/-- The chunks of the "summarization" category template contain no brace characters. -/
theorem summarization_wf : piecesWellFormed summarization_pieces = true := by decide

/-- Number of substitution markers in the "summarization" category template. -/
theorem summarization_marks : markCount summarization_pieces = 2 := by decide

/-- The chunks of the "explanation" category template contain no brace characters. -/
theorem explanation_wf : piecesWellFormed explanation_pieces = true := by decide

/-- Number of substitution markers in the "explanation" category template. -/
theorem explanation_marks : markCount explanation_pieces = 2 := by decide

/-- The chunks of the "reasoning" category template contain no brace characters. -/
theorem reasoning_wf : piecesWellFormed reasoning_pieces = true := by decide

/-- Number of substitution markers in the "reasoning" category template. -/
theorem reasoning_marks : markCount reasoning_pieces = 2 := by decide

/-- The chunks of the "coding" category template contain no brace characters. -/
theorem coding_wf : piecesWellFormed coding_pieces = true := by decide

/-- Number of substitution markers in the "coding" category template. -/
theorem coding_marks : markCount coding_pieces = 1 := by decide

/-- The chunks of the "data_analysis" category template contain no brace characters. -/
theorem data_analysis_wf : piecesWellFormed data_analysis_pieces = true := by decide

/-- Number of substitution markers in the "data_analysis" category template. -/
theorem data_analysis_marks : markCount data_analysis_pieces = 2 := by decide

/-- The chunks of the "language" category template contain no brace characters. -/
theorem language_wf : piecesWellFormed language_pieces = true := by decide

/-- Number of substitution markers in the "language" category template. -/
theorem language_marks : markCount language_pieces = 2 := by decide

/-- The chunks of the "roleplay" category template contain no brace characters. -/
theorem roleplay_wf : piecesWellFormed roleplay_pieces = true := by decide

/-- Number of substitution markers in the "roleplay" category template. -/
theorem roleplay_marks : markCount roleplay_pieces = 1 := by decide

/-- The chunks of the "research" category template contain no brace characters. -/
theorem research_wf : piecesWellFormed research_pieces = true := by decide

/-- Number of substitution markers in the "research" category template. -/
theorem research_marks : markCount research_pieces = 1 := by decide

/-- The chunks of the "productivity" category template contain no brace characters. -/
theorem productivity_wf : piecesWellFormed productivity_pieces = true := by decide

/-- Number of substitution markers in the "productivity" category template. -/
theorem productivity_marks : markCount productivity_pieces = 1 := by decide

/-- The chunks of the "visual_generation" category template contain no brace characters. -/
theorem visual_generation_wf : piecesWellFormed visual_generation_pieces = true := by decide

/-- Number of substitution markers in the "visual_generation" category template. -/
theorem visual_generation_marks : markCount visual_generation_pieces = 1 := by decide

/-- The chunks of the "expert_domains" category template contain no brace characters. -/
theorem expert_domains_wf : piecesWellFormed expert_domains_pieces = true := by decide

/-- Number of substitution markers in the "expert_domains" category template. -/
theorem expert_domains_marks : markCount expert_domains_pieces = 1 := by decide

/-- The chunks of the "meta_prompting" category template contain no brace characters. -/
theorem meta_prompting_wf : piecesWellFormed meta_prompting_pieces = true := by decide

/-- Number of substitution markers in the "meta_prompting" category template. -/
theorem meta_prompting_marks : markCount meta_prompting_pieces = 3 := by decide

/-- The chunks of the default (fallback) category template contain no brace characters. -/
theorem default_wf : piecesWellFormed default_pieces = true := by decide

/-- Number of substitution markers in the default (fallback) category template. -/
theorem default_marks : markCount default_pieces = 1 := by decide


/-! ## Structural lemmas about the replacement scan -/

/-- `countCh` distributes over append. -/
theorem countCh_append (a : Char) (l r : List Char) :
    countCh a (l ++ r) = countCh a l + countCh a r := by
  induction l with
  | nil => simp [countCh]
  | cons c cs ih => simp [countCh, ih]; omega

/-- A list is a prefix of itself followed by anything. -/
theorem prefixOf_self_append (p t : List Char) : p.isPrefixOf (p ++ t) = true := by
  induction p with
  | nil => simp [List.isPrefixOf]
  | cons a p' ih => simp [List.isPrefixOf, ih]

/-- A pattern starting with a character different from the head of the
scanned list does not match there. -/
theorem prefixOf_head_ne (b c : Char) (p' cs : List Char) (h : ¬ c = b) :
    (b :: p').isPrefixOf (c :: cs) = false := by
  simp [List.isPrefixOf]
  intro hbc
  exact absurd hbc.symm h

/-- The result of the replacement scan does not depend on the fuel, as long
as the fuel covers the length of the scanned list. -/
theorem replaceAux_fuel (pat rep : List Char) (hp : pat ≠ []) :
    ∀ (f g : Nat) (s : List Char), s.length ≤ f → s.length ≤ g →
      replaceAux pat rep f s = replaceAux pat rep g s := by
  intro f
  induction f with
  | zero =>
    intro g s hf _
    have hs : s = [] := List.eq_nil_of_length_eq_zero (Nat.le_zero.mp hf)
    subst hs
    cases g <;> rfl
  | succ f ih =>
    intro g s hf hg
    cases s with
    | nil => cases g <;> rfl
    | cons c cs =>
      cases g with
      | zero => simp at hg
      | succ g =>
        have hpl : 1 ≤ pat.length := List.length_pos.mpr hp
        have hdl : (List.drop pat.length (c :: cs)).length = cs.length + 1 - pat.length := by
          simp [List.length_drop]
        simp only [List.length_cons] at hf hg
        simp only [replaceAux]
        by_cases h : pat.isPrefixOf (c :: cs)
        · rw [if_pos h, if_pos h]
          rw [ih g _ (by omega) (by omega)]
        · rw [if_neg h, if_neg h]
          rw [ih g cs (by omega) (by omega)]

/-- The occurrence count does not depend on the fuel, as long as the fuel
covers the length of the scanned list. -/
theorem countOccurAux_fuel (pat : List Char) (hp : pat ≠ []) :
    ∀ (f g : Nat) (s : List Char), s.length ≤ f → s.length ≤ g →
      countOccurAux pat f s = countOccurAux pat g s := by
  intro f
  induction f with
  | zero =>
    intro g s hf _
    have hs : s = [] := List.eq_nil_of_length_eq_zero (Nat.le_zero.mp hf)
    subst hs
    cases g <;> rfl
  | succ f ih =>
    intro g s hf hg
    cases s with
    | nil => cases g <;> rfl
    | cons c cs =>
      cases g with
      | zero => simp at hg
      | succ g =>
        have hpl : 1 ≤ pat.length := List.length_pos.mpr hp
        have hdl : (List.drop pat.length (c :: cs)).length = cs.length + 1 - pat.length := by
          simp [List.length_drop]
        simp only [List.length_cons] at hf hg
        simp only [countOccurAux]
        by_cases h : pat.isPrefixOf (c :: cs)
        · rw [if_pos h, if_pos h]
          rw [ih g _ (by omega) (by omega)]
        · rw [if_neg h, if_neg h]
          rw [ih g cs (by omega) (by omega)]

/-- Scanning across a chunk with no opening brace, for a pattern starting
with an opening brace, copies the chunk unchanged. -/
theorem replaceL_lit (pat rep p' s0 t : List Char)
    (hpat : pat = openBraceCh :: p') (h0 : countCh openBraceCh s0 = 0) :
    replaceL pat rep (s0 ++ t) = s0 ++ replaceL pat rep t := by
  induction s0 with
  | nil => simp
  | cons c s0' ih =>
    have hsum := h0
    rw [show c :: s0' = [c] ++ s0' from rfl, countCh_append] at hsum
    have hc : ¬ c = openBraceCh := by
      intro hcc
      simp [countCh, hcc] at hsum
    have h0' : countCh openBraceCh s0' = 0 := by omega
    have key : replaceL pat rep ((c :: s0') ++ t) = c :: replaceL pat rep (s0' ++ t) := by
      show replaceAux pat rep ((c :: (s0' ++ t)).length) (c :: (s0' ++ t)) = _
      simp only [List.length_cons, replaceAux]
      have hnomatch : pat.isPrefixOf (c :: (s0' ++ t)) = false := by
        rw [hpat]
        exact prefixOf_head_ne _ _ _ _ hc
      rw [hnomatch]
      simp only [Bool.false_eq_true, if_false]
      rfl
    rw [key, ih h0']
    simp

/-- Scanning at a marker occurrence replaces it and continues after it. -/
theorem replaceL_mark (pat rep t : List Char) (hp : pat ≠ []) :
    replaceL pat rep (pat ++ t) = rep ++ replaceL pat rep t := by
  obtain ⟨a, p', hpt⟩ : ∃ a p', pat = a :: p' := by
    cases pat with
    | nil => exact absurd rfl hp
    | cons a p' => exact ⟨a, p', rfl⟩
  have hlen : (pat ++ t).length = (p' ++ t).length + 1 := by simp [hpt]
  show replaceAux pat rep ((pat ++ t).length) (pat ++ t) = _
  rw [hlen]
  have hform : pat ++ t = a :: (p' ++ t) := by simp [hpt]
  rw [hform]
  simp only [replaceAux]
  rw [show a :: (p' ++ t) = pat ++ t from hform.symm]
  rw [prefixOf_self_append]
  simp only [if_true]
  rw [List.drop_left]
  congr 1
  apply replaceAux_fuel pat rep hp
  · simp [hpt]
  · exact le_refl _

/-- Occurrence counting across a brace-free chunk skips it. -/
theorem countOccurL_lit (pat p' s0 t : List Char)
    (hpat : pat = openBraceCh :: p') (h0 : countCh openBraceCh s0 = 0) :
    countOccurL pat (s0 ++ t) = countOccurL pat t := by
  induction s0 with
  | nil => simp
  | cons c s0' ih =>
    have hsum := h0
    rw [show c :: s0' = [c] ++ s0' from rfl, countCh_append] at hsum
    have hc : ¬ c = openBraceCh := by
      intro hcc
      simp [countCh, hcc] at hsum
    have h0' : countCh openBraceCh s0' = 0 := by omega
    have key : countOccurL pat ((c :: s0') ++ t) = countOccurL pat (s0' ++ t) := by
      show countOccurAux pat ((c :: (s0' ++ t)).length) (c :: (s0' ++ t)) = _
      simp only [List.length_cons, countOccurAux]
      have hnomatch : pat.isPrefixOf (c :: (s0' ++ t)) = false := by
        rw [hpat]
        exact prefixOf_head_ne _ _ _ _ hc
      rw [hnomatch]
      simp only [Bool.false_eq_true, if_false]
      rfl
    rw [key, ih h0']

/-- Occurrence counting at a marker occurrence counts it and continues. -/
theorem countOccurL_mark (pat t : List Char) (hp : pat ≠ []) :
    countOccurL pat (pat ++ t) = 1 + countOccurL pat t := by
  obtain ⟨a, p', hpt⟩ : ∃ a p', pat = a :: p' := by
    cases pat with
    | nil => exact absurd rfl hp
    | cons a p' => exact ⟨a, p', rfl⟩
  have hlen : (pat ++ t).length = (p' ++ t).length + 1 := by simp [hpt]
  show countOccurAux pat ((pat ++ t).length) (pat ++ t) = _
  rw [hlen]
  have hform : pat ++ t = a :: (p' ++ t) := by simp [hpt]
  rw [hform]
  simp only [countOccurAux]
  rw [show a :: (p' ++ t) = pat ++ t from hform.symm]
  rw [prefixOf_self_append]
  simp only [if_true]
  rw [List.drop_left]
  congr 1
  apply countOccurAux_fuel pat hp
  · simp [hpt]
  · exact le_refl _


/-! ## Piece-level lemmas -/

/-- The marker is nonempty. -/
theorem marker_ne_nil : userInputMarker.data ≠ [] := by decide

/-- The marker starts with an opening brace. -/
theorem marker_data_cons :
    userInputMarker.data = openBraceCh :: "\x7buser_input\x7d\x7d".data := by decide

/-- The marker contains two opening braces. -/
theorem marker_open_count : countCh openBraceCh userInputMarker.data = 2 := by decide

/-- Well-formedness of a literal-headed piece list, unpacked. -/
theorem piecesWellFormed_cons_lit {s : String} {ps : List Piece}
    (h : piecesWellFormed (.lit s :: ps) = true) :
    countCh openBraceCh s.data = 0 ∧ countCh closeBraceCh s.data = 0 ∧
      piecesWellFormed ps = true := by
  simp [piecesWellFormed] at h ⊢
  exact ⟨h.1.1, h.1.2, h.2⟩

/-- Well-formedness of a marker-headed piece list, unpacked. -/
theorem piecesWellFormed_cons_mark {ps : List Piece}
    (h : piecesWellFormed (.mark :: ps) = true) : piecesWellFormed ps = true := by
  simp [piecesWellFormed] at h ⊢
  exact h

/-- Python replace of the marker over an assembled template substitutes the
replacement for every marker occurrence. -/
theorem replaceL_assemble (rep : List Char) (ps : List Piece)
    (h : piecesWellFormed ps = true) :
    replaceL userInputMarker.data rep (assemble ps) = substPieces rep ps := by
  induction ps with
  | nil => rfl
  | cons p ps ih =>
    cases p with
    | lit s =>
      obtain ⟨h1, _, h3⟩ := piecesWellFormed_cons_lit h
      show replaceL userInputMarker.data rep (s.data ++ assemble ps) = s.data ++ substPieces rep ps
      rw [replaceL_lit userInputMarker.data rep _ s.data (assemble ps) marker_data_cons h1,
        ih h3]
    | mark =>
      show replaceL userInputMarker.data rep (userInputMarker.data ++ assemble ps)
        = rep ++ substPieces rep ps
      rw [replaceL_mark _ _ _ marker_ne_nil, ih (piecesWellFormed_cons_mark h)]

/-- The replacement scan finds exactly the marker occurrences of an
assembled template. -/
theorem countOccurL_assemble (ps : List Piece) (h : piecesWellFormed ps = true) :
    countOccurL userInputMarker.data (assemble ps) = markCount ps := by
  induction ps with
  | nil => rfl
  | cons p ps ih =>
    cases p with
    | lit s =>
      obtain ⟨h1, _, h3⟩ := piecesWellFormed_cons_lit h
      show countOccurL userInputMarker.data (s.data ++ assemble ps) = markCount (.lit s :: ps)
      rw [countOccurL_lit userInputMarker.data _ s.data (assemble ps) marker_data_cons h1,
        ih h3]
      rfl
    | mark =>
      show countOccurL userInputMarker.data (userInputMarker.data ++ assemble ps)
        = markCount (.mark :: ps)
      rw [countOccurL_mark _ _ marker_ne_nil, ih (piecesWellFormed_cons_mark h)]
      rfl

/-- Assembling is substituting the marker for itself. -/
theorem assemble_eq_subst (ps : List Piece) :
    assemble ps = substPieces userInputMarker.data ps := by
  induction ps with
  | nil => rfl
  | cons p ps ih => cases p <;> simp [assemble, substPieces, ih]

/-- If at least one marker is present, the substituted text contains the
replacement as a substring. -/
theorem substr_subst (rep : List Char) (ps : List Piece) (h : 1 ≤ markCount ps) :
    Substr rep (substPieces rep ps) := by
  induction ps with
  | nil => simp [markCount] at h
  | cons p ps ih =>
    cases p with
    | lit s =>
      have h' : 1 ≤ markCount ps := h
      obtain ⟨l, r, hlr⟩ := ih h'
      exact ⟨s.data ++ l, r, by simp [substPieces, hlr]⟩
    | mark =>
      exact ⟨[], substPieces rep ps, by simp [substPieces]⟩

/-- Opening braces of a substituted template all come from the replacement
text (the chunks are brace-free). -/
theorem countCh_subst_open (rep : List Char) (ps : List Piece)
    (h : piecesWellFormed ps = true) :
    countCh openBraceCh (substPieces rep ps)
      = markCount ps * countCh openBraceCh rep := by
  induction ps with
  | nil => simp [substPieces, markCount, countCh]
  | cons p ps ih =>
    cases p with
    | lit s =>
      obtain ⟨h1, _, h3⟩ := piecesWellFormed_cons_lit h
      show countCh openBraceCh (s.data ++ substPieces rep ps) = markCount (.lit s :: ps) * _
      rw [countCh_append, h1, ih h3]
      simp [markCount]
    | mark =>
      show countCh openBraceCh (rep ++ substPieces rep ps) = markCount (.mark :: ps) * _
      rw [countCh_append, ih (piecesWellFormed_cons_mark h)]
      show _ = (1 + markCount ps) * _
      ring

/-- A substring forces at least its own character counts. -/
theorem substr_count_ge (pat s : List Char) (a : Char) (h : Substr pat s) :
    countCh a pat ≤ countCh a s := by
  obtain ⟨l, r, rfl⟩ := h
  simp [countCh_append]
  omega

/-! ## Category-level lemmas -/

/-- Lookup lands in the registry or at the default category. -/
theorem get_prompt_category_cases (category_id : String) :
    get_prompt_category category_id ∈ prompt_categories ∨
      get_prompt_category category_id = default_prompt_category := by
  unfold get_prompt_category
  cases h : prompt_categories.find? (fun category => category.id = category_id) with
  | none => right; rfl
  | some c => left; exact List.mem_of_find?_eq_some h

/-- Every registry category and the default category assemble from a
well-formed piece list with at least one marker. -/
theorem category_pieces (c : PromptCategory)
    (h : c ∈ prompt_categories ∨ c = default_prompt_category) :
    ∃ ps, c.template = String.mk (assemble ps) ∧ piecesWellFormed ps = true ∧
      1 ≤ markCount ps := by
  rcases h with h | rfl
  · simp only [prompt_categories, List.mem_cons, List.not_mem_nil, or_false] at h
    rcases h with rfl | rfl | rfl | rfl | rfl | rfl | rfl | rfl | rfl | rfl | rfl | rfl | rfl | rfl
    · exact ⟨writing_pieces, rfl, writing_wf, by decide⟩
    · exact ⟨ideation_pieces, rfl, ideation_wf, by decide⟩
    · exact ⟨summarization_pieces, rfl, summarization_wf, by decide⟩
    · exact ⟨explanation_pieces, rfl, explanation_wf, by decide⟩
    · exact ⟨reasoning_pieces, rfl, reasoning_wf, by decide⟩
    · exact ⟨coding_pieces, rfl, coding_wf, by decide⟩
    · exact ⟨data_analysis_pieces, rfl, data_analysis_wf, by decide⟩
    · exact ⟨language_pieces, rfl, language_wf, by decide⟩
    · exact ⟨roleplay_pieces, rfl, roleplay_wf, by decide⟩
    · exact ⟨research_pieces, rfl, research_wf, by decide⟩
    · exact ⟨productivity_pieces, rfl, productivity_wf, by decide⟩
    · exact ⟨visual_generation_pieces, rfl, visual_generation_wf, by decide⟩
    · exact ⟨expert_domains_pieces, rfl, expert_domains_wf, by decide⟩
    · exact ⟨meta_prompting_pieces, rfl, meta_prompting_wf, by decide⟩
  · exact ⟨default_pieces, rfl, default_wf, by decide⟩


/-! ## Generation provider model -/

/-- The provider response object: possibly falsy, and possibly lacking a
`text` attribute (`text = some t` models a response whose `text` attribute
holds `t`). -/
structure GenResponse where
  truthy : Bool
  text : Option String
deriving DecidableEq, Repr

/-- `response.text.strip() if response and hasattr(response, "text") else
dflt`, the guard used at every provider call site. -/
def extractText (response : GenResponse) (dflt : String) : String :=
  match response.truthy, response.text with
  | true, some t => pyStripS t
  | _, _ => dflt

/-- The text-prompt provider oracle: a queue of pending outcomes
(`Except.error` models a raised provider exception) and the record of the
prompts sent so far. -/
structure TextProvider where
  pending : List (Except String GenResponse)
  calls : List String
deriving Repr

/-- One `model.generate_content(prompt)` call against the oracle. -/
def text_call (prompt : String) (st : TextProvider) :
    Except String GenResponse × TextProvider :=
  match st.pending with
  | [] => (Except.error "no pending response", ⟨[], st.calls ++ [prompt]⟩)
  | r :: rest => (r, ⟨rest, st.calls ++ [prompt]⟩)

/-- Python exceptions crossing the embedded API layer. -/
inductive PyExc where
  | http (status : Nat) (detail : String)
  | generic (msg : String)
deriving DecidableEq, Repr

/-- Python `str(e)` for the embedded exceptions (FastAPI\x27s `HTTPException`
stringifies as "status: detail"). -/
def excStr : PyExc → String
  | .http status detail => toString status ++ ": " ++ detail
  | .generic msg => msg

/-! ## Request and response models -/

/-- `PromptRequest` in Backend/main.py. -/
structure PromptRequest where
  task_description : String
  category : String
deriving DecidableEq, Repr

/-- `RefinementResponse` in Backend/main.py. -/
structure RefinementResponse where
  optimized_prompt : String
  explanation : List String
  suggestions : List String
  original_task_for_mod : String
  original_category_label_for_mod : String
  current_category_id : String
deriving DecidableEq, Repr

/-- `ChatMessagePart` in Backend/main.py. -/
structure ChatMessagePart where
  text : String
deriving DecidableEq, Repr

/-- `ChatMessageContent` in Backend/main.py. -/
structure ChatMessageContent where
  role : String
  parts : List ChatMessagePart
deriving DecidableEq, Repr

/-- `ChatRequest` in Backend/main.py. -/
structure ChatRequest where
  history : List ChatMessageContent
deriving DecidableEq, Repr

/-- `ChatResponse` in Backend/main.py. -/
structure ChatResponse where
  model_response : String
deriving DecidableEq, Repr

/-- The `{"explanation": ..., "suggestions": ...}` dictionary returned by
`get_ai_explanation_and_suggestions`. -/
structure AnalysisResult where
  explanation : List String
  suggestions : List String
deriving DecidableEq, Repr

/-! ## Services -/

/-- `get_ai_explanation_and_suggestions` in Backend/main.py: two sequential
provider calls (the second is not reached if the first raises); empty or
text-less responses degrade to the empty string before parsing. -/
def get_ai_explanation_and_suggestions
    (generated_prompt original_task category_label : String) (st : TextProvider) :
    Except String AnalysisResult × TextProvider :=
  let explanation_prompt := explanation_prompt_text generated_prompt original_task category_label
  let suggestion_prompt := suggestion_prompt_text generated_prompt original_task category_label
  match text_call explanation_prompt st with
  | (Except.error e, st1) => (Except.error e, st1)
  | (Except.ok explanation_response, st1) =>
    match text_call suggestion_prompt st1 with
    | (Except.error e, st2) => (Except.error e, st2)
    | (Except.ok suggestion_response, st2) =>
      let explanation_raw := extractText explanation_response ""
      let suggestions_raw := extractText suggestion_response ""
      (Except.ok ⟨parse_bullet_list explanation_raw, parse_bullet_list suggestions_raw⟩, st2)

/-- `generate_prompt_api` in Backend/main.py: resolve the sentinel to the
default id, compile the prompt, call the provider, derive the analysis, and
assemble the response; any raised exception maps to a 500. -/
def generate_prompt_api (data : PromptRequest) (st : TextProvider) :
    Except PyExc RefinementResponse × TextProvider :=
  let selected_category_id :=
    if data.category ≠ NO_SELECTION_CATEGORY_ID then data.category
    else default_prompt_category.id
  let category_info := get_prompt_category selected_category_id
  let prompt_text := get_category_prompt selected_category_id data.task_description
  match text_call prompt_text st with
  | (Except.error e, st1) =>
    (Except.error (PyExc.http 500 ("Failed to generate prompt: " ++ e)), st1)
  | (Except.ok response, st1) =>
    let refined_prompt := extractText response ""
    match get_ai_explanation_and_suggestions refined_prompt data.task_description
        category_info.label st1 with
    | (Except.error e, st2) =>
      (Except.error (PyExc.http 500 ("Failed to generate prompt: " ++ e)), st2)
    | (Except.ok ai_analysis, st2) =>
      (Except.ok ⟨refined_prompt, ai_analysis.explanation, ai_analysis.suggestions,
        data.task_description, category_info.label, selected_category_id⟩, st2)

/-- `modify_prompt_with_user_input` in Backend/main.py: build the
modification meta-prompt, call the provider once; on a raised exception or
an unusable response return the original prompt. -/
def modify_prompt_with_user_input
    (current_refined_prompt user_modification_instructions
      original_task_for_context original_category_label_for_context : String)
    (st : TextProvider) : String × TextProvider :=
  let modification_prompt := modification_prompt_text current_refined_prompt
    user_modification_instructions original_task_for_context
    original_category_label_for_context
  match text_call modification_prompt st with
  | (Except.error _, st1) => (current_refined_prompt, st1)
  | (Except.ok response, st1) =>
    match response.truthy, response.text with
    | true, some t => (pyStripS t, st1)
    | _, _ => (current_refined_prompt, st1)

/-- The history-mode provider oracle (for `model.generate_content(contents=...)`). -/
structure ChatProvider where
  pending : List (Except String GenResponse)
  calls : List (List ChatMessageContent)
deriving Repr

/-- One history-mode provider call against the oracle. -/
def chat_call (contents : List ChatMessageContent) (st : ChatProvider) :
    Except String GenResponse × ChatProvider :=
  match st.pending with
  | [] => (Except.error "no pending response", ⟨[], st.calls ++ [contents]⟩)
  | r :: rest => (r, ⟨rest, st.calls ++ [contents]⟩)

/-- The `try` body of `chat_api` in Backend/main.py: empty-history check
(raises a 400 `HTTPException`), history re-packing, provider call. -/
def chat_api_body (data : ChatRequest) (st : ChatProvider) :
    Except PyExc ChatResponse × ChatProvider :=
  if data.history.isEmpty then
    (Except.error (PyExc.http 400 "Chat history cannot be empty."), st)
  else
    let gemini_history := data.history.map fun msg =>
      ChatMessageContent.mk msg.role (msg.parts.map fun p => ChatMessagePart.mk p.text)
    match chat_call gemini_history st with
    | (Except.error e, st1) => (Except.error (PyExc.generic e), st1)
    | (Except.ok response, st1) =>
      (Except.ok ⟨extractText response "No response from AI."⟩, st1)

/-- `chat_api` in Backend/main.py: the `try` body wrapped by the blanket
`except Exception` clause, which maps any raised exception — including the
400 `HTTPException` raised for an empty history — onto a 500 response. -/
def chat_api (data : ChatRequest) (st : ChatProvider) :
    Except PyExc ChatResponse × ChatProvider :=
  match chat_api_body data st with
  | (Except.ok r, st1) => (Except.ok r, st1)
  | (Except.error e, st1) =>
    (Except.error (PyExc.http 500 ("Failed to get chat response: " ++ excStr e)), st1)

/-! ## Auth service -/

/-- The value stored in `fake_user_db`:
`{"email": email, "password": hashed}`. -/
structure UserRecord where
  email : String
  password : String
deriving DecidableEq, Repr

/-- The in-memory user store `fake_user_db`: an insertion-ordered
email-keyed dictionary. -/
abbrev UserDB := List (String × UserRecord)

/-- Python `db.get(key)`. -/
def dbGet (db : UserDB) (key : String) : Option UserRecord :=
  (db.find? (fun p => p.1 = key)).map (fun p => p.2)

/-- Python `key in db`. -/
def dbContains (db : UserDB) (key : String) : Bool :=
  (db.find? (fun p => p.1 = key)).isSome

/-- Python dict assignment `db[key] = v`: overwrite if present, else append. -/
def dbInsert (db : UserDB) (key : String) (v : UserRecord) : UserDB :=
  if dbContains db key then
    db.map (fun p => if p.1 = key then (key, v) else p)
  else db ++ [(key, v)]

/-- `ACCESS_TOKEN_EXPIRE_MINUTES` in Backend/main.py. -/
def ACCESS_TOKEN_EXPIRE_MINUTES : Nat := 60

/-- Decoded claims of the auth token; the signed JWT is modelled by its
payload (the jose signing/encoding library is an external primitive). -/
structure TokenClaims where
  sub : String
  exp : Nat
deriving DecidableEq, Repr

/-- `create_token` in Backend/main.py, applied to `data = {"sub": sub}` as
`login` does: adds an expiry `ACCESS_TOKEN_EXPIRE_MINUTES` minutes after
the issuance instant `now` (in seconds). -/
def create_token (sub : String) (now : Nat) : TokenClaims :=
  ⟨sub, now + ACCESS_TOKEN_EXPIRE_MINUTES * 60⟩

/-- The email/password payload of `UserRegister` and `UserLogin`. -/
structure UserAuth where
  email : String
  password : String
deriving DecidableEq, Repr

/-- `register` in Backend/main.py: duplicate check, then hash, then store;
`hashF` abstracts `pwd_context.hash`. -/
def register (user : UserAuth) (hashF : String → String) (db : UserDB) :
    Except PyExc String × UserDB :=
  if dbContains db user.email then
    (Except.error (PyExc.http 400 "User already exists"), db)
  else
    (Except.ok "Registration successful",
      dbInsert db user.email ⟨user.email, hashF user.password⟩)

/-- `login` in Backend/main.py; `verifyF` abstracts `pwd_context.verify`,
`now` is the issuance instant. -/
def login (user : UserAuth) (verifyF : String → String → Bool) (now : Nat)
    (db : UserDB) : Except PyExc TokenClaims :=
  match dbGet db user.email with
  | none => Except.error (PyExc.http 401 "Invalid credentials")
  | some db_user =>
    if verifyF user.password db_user.password then
      Except.ok (create_token user.email now)
    else
      Except.error (PyExc.http 401 "Invalid credentials")

/-! ## Interleaving model of `register` -/

/-- One in-flight `register` invocation, with its body split into its two
separate store operations: pc 0 = about to run the duplicate check,
pc 1 = check passed, about to insert, pc 2 = finished. -/
structure RegThread where
  pc : Nat
  outcome : Option Bool
deriving DecidableEq, Repr

/-- One atomic store operation of a register invocation. -/
def regStep (email : String) (hashedPw : String) (db : UserDB) (t : RegThread) :
    UserDB × RegThread :=
  match t.pc with
  | 0 =>
    if dbContains db email then (db, ⟨2, some false⟩)
    else (db, ⟨1, none⟩)
  | 1 => (dbInsert db email ⟨email, hashedPw⟩, ⟨2, some true⟩)
  | _ => (db, t)

/-- Run a schedule (a list of thread indices) over a pool of same-email
register invocations, interleaving their store operations freely. -/
def schedRun (email hashedPw : String) :
    List Nat → UserDB × List RegThread → UserDB × List RegThread
  | [], st => st
  | i :: rest, (db, threads) =>
    match threads.get? i with
    | none => schedRun email hashedPw rest (db, threads)
    | some t =>
      let (db', t') := regStep email hashedPw db t
      schedRun email hashedPw rest (db', threads.set i t')

/-- Sequential (run-to-completion) execution of `n` same-credential
register calls, as the asyncio event loop executes the handler (no await
point between check and insert). -/
def runRegisters (user : UserAuth) (hashF : String → String) :
    Nat → UserDB → UserDB × List Bool
  | 0, db => (db, [])
  | n + 1, db =>
    match register user hashF db with
    | (r, db') =>
      let (dbf, outs) := runRegisters user hashF n db'
      (dbf, (match r with | Except.ok _ => true | Except.error _ => false) :: outs)

/-- Number of stored records under a given email key. -/
def countKey (key : String) (db : UserDB) : Nat :=
  (db.filter (fun p => p.1 = key)).length


/-! ## Reference bullet-list parser (spec section 4.4) -/

/-- One line of the reference parser of spec section 4.4: a non-empty
trimmed line starting with the "* " marker contributes the remainder (kept
verbatim); any other non-empty trimmed line contributes itself. -/
def lineItemSpec (line : List Char) : Option (List Char) :=
  let t := pyStrip line
  if t = [] then none
  else if ("* ".data).isPrefixOf t then some (t.drop 2)
  else some t

/-- Reference definition of the bullet-list parser, following the words of
spec section 4.4: split the input on line breaks, collect the per-line
items, fall back to the single-element list of the whole trimmed input when
the items are empty but the trimmed input is non-empty, and return the
empty list for the empty input. -/
def parse_spec (text : String) : List String :=
  if text = "" then []
  else
    let items := (splitOnNL text.data).filterMap lineItemSpec
    if items ≠ [] then items.map String.mk
    else if pyStrip text.data ≠ [] then [String.mk (pyStrip text.data)]
    else []

/-- The reference parser amended as the code forces: the remainder after
the "* " marker is additionally trimmed, and the single-element fallback
triggers for every non-empty input whose item list is empty (so a
whitespace-only input yields a list holding the empty string). -/
def parse_spec_amended (text : String) : List String :=
  if text = "" then []
  else
    let items := itemsOf (splitOnNL text.data)
    if items ≠ [] then items.map String.mk
    else [String.mk (pyStrip text.data)]

/-! ## Lemmas: trimming the whole input before splitting is invisible -/

/-- `splitOnNL` never returns the empty list of lines. -/
theorem splitOnNL_ne_nil (l : List Char) : splitOnNL l ≠ [] := by
  cases l with
  | nil => simp [splitOnNL]
  | cons c cs =>
    simp only [splitOnNL]
    cases h : splitOnNL cs with
    | nil => simp
    | cons a as => by_cases hc : c = '\n' <;> simp [hc]

/-- Splitting after a leading newline contributes one empty line. -/
theorem splitOnNL_cons_nl (cs : List Char) :
    splitOnNL ('\n' :: cs) = [] :: splitOnNL cs := by
  simp only [splitOnNL]
  cases h : splitOnNL cs with
  | nil => exact absurd h (splitOnNL_ne_nil cs)
  | cons a as => simp

/-- A leading non-newline character joins the first line. -/
theorem splitOnNL_cons_other {c : Char} (hc : ¬ c = '\n') {cs : List Char}
    {l : List Char} {ls : List (List Char)} (h : splitOnNL cs = l :: ls) :
    splitOnNL (c :: cs) = (c :: l) :: ls := by
  simp only [splitOnNL, h]
  simp [hc]

/-- The empty line contributes no item. -/
theorem lineItem_nil : lineItem [] = none := rfl

/-- Trimming ignores a leading whitespace character. -/
theorem pyStrip_ws_cons {c : Char} (hws : isPySpace c = true) (l : List Char) :
    pyStrip (c :: l) = pyStrip l := by
  simp [pyStrip, List.dropWhile_cons, hws]

/-- A line item ignores a leading whitespace character. -/
theorem lineItem_ws_cons {c : Char} (hws : isPySpace c = true) (l : List Char) :
    lineItem (c :: l) = lineItem l := by
  simp [lineItem, pyStrip_ws_cons hws]

/-- Dropping leading whitespace from the whole input does not change the
collected items. -/
theorem itemsOf_dropWhile (l : List Char) :
    itemsOf (splitOnNL (l.dropWhile isPySpace)) = itemsOf (splitOnNL l) := by
  induction l with
  | nil => rfl
  | cons c cs ih =>
    by_cases hws : isPySpace c
    · rw [List.dropWhile_cons]
      simp only [hws, if_true]
      rw [ih]
      by_cases hnl : c = '\n'
      · subst hnl
        rw [splitOnNL_cons_nl]
        simp [itemsOf, List.filterMap_cons, lineItem_nil]
      · cases h : splitOnNL cs with
        | nil => exact absurd h (splitOnNL_ne_nil cs)
        | cons a as =>
          rw [splitOnNL_cons_other hnl h]
          simp [itemsOf, List.filterMap_cons, lineItem_ws_cons hws]
    · rw [List.dropWhile_cons]
      simp [hws]

/-- Append a character to the last line. -/
def appendToLast (L : List (List Char)) (c : Char) : List (List Char) :=
  match L with
  | [] => [[c]]
  | [l] => [l ++ [c]]
  | l :: ls => l :: appendToLast ls c

/-- Splitting with a trailing newline appends one empty line. -/
theorem splitOnNL_append_nl (m : List Char) :
    splitOnNL (m ++ ['\n']) = splitOnNL m ++ [[]] := by
  induction m with
  | nil => rfl
  | cons a m' ih =>
    by_cases ha : a = '\n'
    · subst ha
      rw [List.cons_append, splitOnNL_cons_nl, splitOnNL_cons_nl, ih]
      rfl
    · cases h : splitOnNL m' with
      | nil => exact absurd h (splitOnNL_ne_nil m')
      | cons x xs =>
        have h2 : splitOnNL (m' ++ ['\n']) = x :: (xs ++ [[]]) := by
          rw [ih, h]
          rfl
        rw [List.cons_append, splitOnNL_cons_other ha h2, splitOnNL_cons_other ha h]
        rfl

/-- Splitting with a trailing non-newline character extends the last line. -/
theorem splitOnNL_append_other {c : Char} (hc : ¬ c = '\n') (m : List Char) :
    splitOnNL (m ++ [c]) = appendToLast (splitOnNL m) c := by
  induction m with
  | nil =>
    simp only [List.nil_append]
    simp [splitOnNL, hc, appendToLast]
  | cons a m' ih =>
    by_cases ha : a = '\n'
    · subst ha
      rw [List.cons_append, splitOnNL_cons_nl, splitOnNL_cons_nl, ih]
      cases h : splitOnNL m' with
      | nil => exact absurd h (splitOnNL_ne_nil m')
      | cons x xs => rfl
    · cases h : splitOnNL m' with
      | nil => exact absurd h (splitOnNL_ne_nil m')
      | cons x xs =>
        have h2 : splitOnNL (m' ++ [c]) = appendToLast (x :: xs) c := by rw [ih, h]
        cases xs with
        | nil =>
          have h3 : splitOnNL (m' ++ [c]) = [x ++ [c]] := by rw [h2]; rfl
          rw [List.cons_append, splitOnNL_cons_other ha h3, splitOnNL_cons_other ha h]
          rfl
        | cons y ys =>
          have h3 : splitOnNL (m' ++ [c]) = x :: appendToLast (y :: ys) c := by
            rw [h2]; rfl
          rw [List.cons_append, splitOnNL_cons_other ha h3, splitOnNL_cons_other ha h]
          rfl

/-- Items ignore a trailing empty line. -/
theorem itemsOf_append_nil_line (L : List (List Char)) :
    itemsOf (L ++ [[]]) = itemsOf L := by
  simp [itemsOf, List.filterMap_append, lineItem_nil]

/-- Trimming ignores a trailing whitespace character. -/
theorem stripEnd_append_ws {c : Char} (hws : isPySpace c = true) (x : List Char) :
    stripEnd (x ++ [c]) = stripEnd x := by
  induction x with
  | nil => simp [stripEnd, hws]
  | cons a x' ih =>
    rw [List.cons_append]
    simp only [stripEnd, ih]

/-- `pyStrip` ignores a trailing whitespace character. -/
theorem pyStrip_append_ws {c : Char} (hws : isPySpace c = true) (l : List Char) :
    pyStrip (l ++ [c]) = pyStrip l := by
  unfold pyStrip
  cases h : l.dropWhile isPySpace with
  | nil =>
    have h2 : (l ++ [c]).dropWhile isPySpace = [c].dropWhile isPySpace := by
      rw [List.dropWhile_append, h]
      simp
    rw [h2]
    simp [List.dropWhile_cons, hws, stripEnd]
  | cons a as =>
    have h2 : (l ++ [c]).dropWhile isPySpace = (a :: as) ++ [c] := by
      rw [List.dropWhile_append, h]
      simp
    rw [h2, stripEnd_append_ws hws]

/-- A line item ignores a trailing whitespace character. -/
theorem lineItem_append_ws {c : Char} (hws : isPySpace c = true) (l : List Char) :
    lineItem (l ++ [c]) = lineItem l := by
  simp [lineItem, pyStrip_append_ws hws]

/-- Items ignore a trailing whitespace character on the last line. -/
theorem itemsOf_appendToLast {c : Char} (hws : isPySpace c = true) :
    ∀ L : List (List Char), itemsOf (appendToLast L c) = itemsOf L := by
  intro L
  induction L with
  | nil =>
    show itemsOf [[c]] = itemsOf []
    have : lineItem [c] = none := by
      have : pyStrip [c] = [] := by
        simp [pyStrip, List.dropWhile_cons, hws, stripEnd]
      simp [lineItem, this]
    simp [itemsOf, List.filterMap_cons, this]
  | cons l ls ih =>
    cases ls with
    | nil =>
      show itemsOf [l ++ [c]] = itemsOf [l]
      simp [itemsOf, List.filterMap_cons, lineItem_append_ws hws]
    | cons y ys =>
      show itemsOf (l :: appendToLast (y :: ys) c) = itemsOf (l :: y :: ys)
      simp only [itemsOf, List.filterMap_cons] at ih ⊢
      cases lineItem l <;> simp [ih]

/-- Appending trailing whitespace to the input does not change the
collected items. -/
theorem itemsOf_append_ws (w : List Char) (hw : ∀ c ∈ w, isPySpace c = true) :
    ∀ m : List Char, itemsOf (splitOnNL (m ++ w)) = itemsOf (splitOnNL m) := by
  induction w using List.reverseRecOn with
  | nil => intro m; simp
  | append_singleton w' c ih =>
    intro m
    have hc : isPySpace c = true := hw c (by simp)
    have hw' : ∀ a ∈ w', isPySpace a = true := fun a ha => hw a (by simp [ha])
    rw [show m ++ (w' ++ [c]) = (m ++ w') ++ [c] by simp]
    by_cases hnl : c = '\n'
    · subst hnl
      rw [splitOnNL_append_nl, itemsOf_append_nil_line, ih hw']
    · rw [splitOnNL_append_other hnl, itemsOf_appendToLast hc, ih hw']

/-- Decomposition produced by `stripEnd`: the dropped tail is whitespace. -/
theorem stripEnd_decomp (l : List Char) :
    ∃ w, (∀ c ∈ w, isPySpace c = true) ∧ l = stripEnd l ++ w := by
  induction l with
  | nil => exact ⟨[], by simp, rfl⟩
  | cons c cs ih =>
    obtain ⟨w, hw, hcs⟩ := ih
    cases h : stripEnd cs with
    | nil =>
      rw [h, List.nil_append] at hcs
      by_cases hws : isPySpace c
      · refine ⟨c :: cs, ?_, ?_⟩
        · intro a ha
          rcases List.mem_cons.mp ha with rfl | ha'
          · exact hws
          · exact hw a (hcs ▸ ha')
        · simp [stripEnd, h, hws]
      · refine ⟨cs, fun a ha => hw a (hcs ▸ ha), ?_⟩
        simp [stripEnd, h, hws]
    | cons d r =>
      refine ⟨w, hw, ?_⟩
      have hse : stripEnd (c :: cs) = c :: stripEnd cs := by
        simp [stripEnd, h]
      rw [h] at hcs
      rw [hse, h, List.cons_append, ← hcs]

/-- Trimming the whole input before splitting does not change the collected
items: the key invisibility lemma. -/
theorem itemsOf_pyStrip (l : List Char) :
    itemsOf (splitOnNL (pyStrip l)) = itemsOf (splitOnNL l) := by
  unfold pyStrip
  obtain ⟨w, hw, hdec⟩ := stripEnd_decomp (l.dropWhile isPySpace)
  calc itemsOf (splitOnNL (stripEnd (l.dropWhile isPySpace)))
      = itemsOf (splitOnNL (stripEnd (l.dropWhile isPySpace) ++ w)) := by
        rw [itemsOf_append_ws w hw]
    _ = itemsOf (splitOnNL (l.dropWhile isPySpace)) := by rw [← hdec]
    _ = itemsOf (splitOnNL l) := itemsOf_dropWhile l

/-- `parse_bullet_list` equals the amended reference parser on every
input. -/
theorem parse_bullet_list_eq_amended (s : String) :
    parse_bullet_list s = parse_spec_amended s := by
  unfold parse_bullet_list parse_spec_amended
  by_cases hs : s = ""
  · simp [hs]
  · simp only [hs, if_false]
    rw [show itemsOf (splitOnNL (pyStrip s.data)) = itemsOf (splitOnNL s.data) from
      itemsOf_pyStrip s.data]



/-! ## Lemmas about the user store -/

/-- A freshly appended record makes the store contain its key. -/
theorem dbContains_append_self (db : UserDB) (k : String) (v : UserRecord) :
    dbContains (db ++ [(k, v)]) k = true := by
  unfold dbContains
  rw [List.find?_append]
  cases h : db.find? (fun p => p.1 = k) with
  | some p => simp [Option.or]
  | none => simp [Option.or, List.find?]

/-- Registrations against a store already holding the email all report the
conflict and leave the store unchanged. -/
theorem runRegisters_conflict (user : UserAuth) (hashF : String → String)
    (db : UserDB) (h : dbContains db user.email = true) :
    ∀ n, runRegisters user hashF n db = (db, List.replicate n false) := by
  intro n
  induction n with
  | zero => rfl
  | succ m ih => simp [runRegisters, register, h, ih, List.replicate_succ]

/-- Appending a record with the key increments the key count. -/
theorem countKey_append_self (k : String) (db : UserDB) (v : UserRecord) :
    countKey k (db ++ [(k, v)]) = countKey k db + 1 := by
  simp [countKey, List.filter_append]

/-- A store not containing the key holds no record under it. -/
theorem countKey_zero (k : String) (db : UserDB) (h : dbContains db k = false) :
    countKey k db = 0 := by
  unfold countKey
  rw [List.length_eq_zero, List.filter_eq_nil_iff]
  unfold dbContains at h
  have hnone : db.find? (fun p => p.1 = k) = none := by
    cases hf : db.find? (fun p => p.1 = k) with
    | none => rfl
    | some p => rw [hf] at h; simp at h
  exact List.find?_eq_none.mp hnone

/-! ## Claim theorems -/

/-- C1 (counterexample): the claim asserts that lookup on the sentinel id
returns the same id, label and template as lookup on the default category
id; the records differ, because lookup of "meta_prompting" finds the long
registry template while the sentinel falls back to the short default
template. -/
theorem C1_counterexample :
    get_prompt_category NO_SELECTION_CATEGORY_ID ≠
        get_prompt_category default_prompt_category.id ∧
      (get_prompt_category NO_SELECTION_CATEGORY_ID).template ≠
        (get_prompt_category default_prompt_category.id).template := by
  constructor <;> decide

/-- C1 (amended): the registry lookup never fails: on every unregistered id
and on the "please_select" sentinel it returns the default category, which
agrees with the category returned for the default id on id and label (but
not on template). -/
theorem C1_amended :
    (∀ category_id : String, (∀ c ∈ prompt_categories, c.id ≠ category_id) →
        get_prompt_category category_id = default_prompt_category) ∧
      get_prompt_category NO_SELECTION_CATEGORY_ID = default_prompt_category ∧
      (get_prompt_category NO_SELECTION_CATEGORY_ID).id =
        (get_prompt_category default_prompt_category.id).id ∧
      (get_prompt_category NO_SELECTION_CATEGORY_ID).label =
        (get_prompt_category default_prompt_category.id).label := by
  refine ⟨?_, by decide, by decide, by decide⟩
  intro category_id h
  unfold get_prompt_category
  cases hf : prompt_categories.find? (fun category => category.id = category_id) with
  | none => rfl
  | some c =>
    exfalso
    have hmem := List.mem_of_find?_eq_some hf
    have hp := List.find?_some hf
    simp at hp
    exact h c hmem hp

/-- C1 (witness for the amended theorem): an unregistered id falls back to
the default category. -/
theorem C1_amended_witness :
    get_prompt_category "no_such_category" = default_prompt_category :=
  C1_amended.1 "no_such_category" (by decide)

/-- C2 (counterexample): the "writing" template contains the substitution
marker twice, not exactly once. -/
theorem C2_counterexample :
    countOccurL userInputMarker.data (get_prompt_category "writing").template.data = 2 ∧
      countOccurL userInputMarker.data (get_prompt_category "writing").template.data ≠ 1 := by
  have h : countOccurL userInputMarker.data
      (get_prompt_category "writing").template.data = 2 := by
    show countOccurL userInputMarker.data (assemble writing_pieces) = 2
    rw [countOccurL_assemble writing_pieces writing_wf, writing_marks]
  exact ⟨h, by rw [h]; decide⟩

/-- C2 (amended): every registered template and the default template
contain the substitution marker at least once (several contain it more than
once). -/
theorem C2_amended (c : PromptCategory)
    (h : c ∈ prompt_categories ∨ c = default_prompt_category) :
    1 ≤ countOccurL userInputMarker.data c.template.data := by
  obtain ⟨ps, hT, hwf, hmk⟩ := category_pieces c h
  rw [hT]
  show 1 ≤ countOccurL userInputMarker.data (assemble ps)
  rw [countOccurL_assemble ps hwf]
  exact hmk

/-- C2 (witness for the amended theorem): the default template contains the
marker. -/
theorem C2_amended_witness :
    1 ≤ countOccurL userInputMarker.data default_prompt_category.template.data :=
  C2_amended default_prompt_category (Or.inr rfl)

/-- C3: an empty chat history is rejected before any provider call (the
oracle state is returned untouched, whatever it is), but the 400
`HTTPException` raised inside the `try` block is caught by the blanket
`except Exception` clause and re-raised as a 500 — so the client observes
status 500, not the claimed 400. -/
theorem C3_chat_empty_history (st : ChatProvider) :
    chat_api ⟨[]⟩ st =
      (Except.error (PyExc.http 500
        "Failed to get chat response: 400: Chat history cannot be empty."), st) := by
  rfl

/-- C4: if the provider call inside the modification service raises, the
service returns the original current prompt unchanged, for every input. -/
theorem C4_modify_error_returns_current
    (current instructions task label err : String)
    (rest : List (Except String GenResponse)) (calls : List String) :
    (modify_prompt_with_user_input current instructions task label
      ⟨Except.error err :: rest, calls⟩).1 = current := by
  rfl

/-- C5 (counterexample): on "*  a" the code trims the remainder after the
"* " marker while the reference of spec section 4.4 keeps it verbatim; on
the whitespace-only input " " the code returns a one-element list while the
reference returns the empty list. -/
theorem C5_counterexample :
    parse_bullet_list "*  a" ≠ parse_spec "*  a" ∧
      parse_bullet_list " " ≠ parse_spec " " := by
  constructor <;> decide

/-- C5 (amended): `parse_bullet_list` equals the reference parser of spec
section 4.4 amended in exactly two points — the remainder after the "* "
marker is additionally trimmed, and every non-empty input whose item list
is empty falls back to the single-element list of the trimmed input — and
the three example evaluations of the claim hold. -/
theorem C5_amended :
    (∀ s : String, parse_bullet_list s = parse_spec_amended s) ∧
      parse_bullet_list "* a\n* b\n* c" = ["a", "b", "c"] ∧
      parse_bullet_list "just one line" = ["just one line"] ∧
      parse_bullet_list "" = [] := by
  refine ⟨parse_bullet_list_eq_amended, by decide, by decide, by decide⟩

/-- C6 (counterexample): with the marker itself as user input, the compiled
"writing" prompt still contains the literal marker; and the "writing"
template carries two marker occurrences, so the compilation is not a single
substitution. -/
theorem C6_counterexample :
    Substr userInputMarker.data
        (get_category_prompt "writing" userInputMarker).data ∧
      countOccurL userInputMarker.data
        (get_prompt_category "writing").template.data ≠ 1 := by
  constructor
  · have hq : (get_category_prompt "writing" userInputMarker).data
        = substPieces userInputMarker.data writing_pieces := by
      show replaceL userInputMarker.data userInputMarker.data
          (get_prompt_category "writing").template.data = _
      show replaceL userInputMarker.data userInputMarker.data
          (assemble writing_pieces) = _
      exact replaceL_assemble userInputMarker.data writing_pieces writing_wf
    rw [hq]
    exact substr_subst _ writing_pieces (by rw [writing_marks]; omega)
  · show countOccurL userInputMarker.data (assemble writing_pieces) ≠ 1
    rw [countOccurL_assemble writing_pieces writing_wf, writing_marks]
    omega

/-- C6 (amended): for every category id and every user input, the compiled
prompt contains the input verbatim (the marker is replaced at every one of
its occurrences, of which there is at least one); and whenever the input
contains no opening brace, the output contains no occurrence of the
marker. -/
theorem C6_amended (category_id user_input : String) :
    Substr user_input.data (get_category_prompt category_id user_input).data ∧
      (countCh openBraceCh user_input.data = 0 →
        ¬ Substr userInputMarker.data
          (get_category_prompt category_id user_input).data) := by
  obtain ⟨ps, hT, hwf, hmk⟩ :=
    category_pieces (get_prompt_category category_id)
      (get_prompt_category_cases category_id)
  have hdata : (get_category_prompt category_id user_input).data
      = substPieces user_input.data ps := by
    show (pyReplace (get_prompt_category category_id).template
        userInputMarker user_input).data = _
    rw [show (pyReplace (get_prompt_category category_id).template
        userInputMarker user_input).data
      = replaceL userInputMarker.data user_input.data
          (get_prompt_category category_id).template.data from rfl]
    rw [hT]
    show replaceL userInputMarker.data user_input.data (assemble ps) = _
    exact replaceL_assemble user_input.data ps hwf
  constructor
  · rw [hdata]
    exact substr_subst user_input.data ps hmk
  · intro h hsub
    rw [hdata] at hsub
    have hcount := substr_count_ge _ _ openBraceCh hsub
    rw [countCh_subst_open user_input.data ps hwf, h, Nat.mul_zero,
      marker_open_count] at hcount
    omega

/-- C6 (witness for the amended theorem): a brace-free input compiled into
the "ideation" template leaves no marker in the output. -/
theorem C6_amended_witness :
    countCh openBraceCh ("hello").data = 0 ∧
      ¬ Substr userInputMarker.data (get_category_prompt "ideation" "hello").data :=
  ⟨by decide, (C6_amended "ideation" "hello").2 (by decide)⟩

/-- C7: on three successful provider responses, the refinement endpoint
resolves the sentinel id to the default id and otherwise keeps the request
id; its response carries the original task, the resolved category label and
the effective category id; and the provider is called exactly three times —
first with the compiled main prompt, then with the explanation and
suggestion meta-prompts.  In particular refine("write a blog post",
"writing") reports current_category_id = "writing". -/
theorem C7_generate_prompt (task cat : String) (r1 r2 r3 : GenResponse)
    (rest : List (Except String GenResponse)) :
    (∃ (resp : RefinementResponse) (st : TextProvider),
      generate_prompt_api ⟨task, cat⟩
          ⟨[Except.ok r1, Except.ok r2, Except.ok r3] ++ rest, []⟩
        = (Except.ok resp, st) ∧
      resp.current_category_id =
        (if cat ≠ NO_SELECTION_CATEGORY_ID then cat
          else default_prompt_category.id) ∧
      resp.original_task_for_mod = task ∧
      resp.original_category_label_for_mod =
        (get_prompt_category (if cat ≠ NO_SELECTION_CATEGORY_ID then cat
          else default_prompt_category.id)).label ∧
      resp.optimized_prompt = extractText r1 "" ∧
      st.pending = rest ∧
      st.calls = [get_category_prompt (if cat ≠ NO_SELECTION_CATEGORY_ID then cat
          else default_prompt_category.id) task,
        explanation_prompt_text (extractText r1 "") task
          (get_prompt_category (if cat ≠ NO_SELECTION_CATEGORY_ID then cat
            else default_prompt_category.id)).label,
        suggestion_prompt_text (extractText r1 "") task
          (get_prompt_category (if cat ≠ NO_SELECTION_CATEGORY_ID then cat
            else default_prompt_category.id)).label]) ∧
    (generate_prompt_api ⟨"write a blog post", "writing"⟩
        ⟨[Except.ok r1, Except.ok r2, Except.ok r3], []⟩).1
      = Except.ok ⟨extractText r1 "",
          parse_bullet_list (extractText r2 ""),
          parse_bullet_list (extractText r3 ""),
          "write a blog post", "Writing & Content Creation", "writing"⟩ := by
  refine ⟨⟨_, _, rfl, rfl, rfl, rfl, rfl, rfl, rfl⟩, rfl⟩

/-- C8: with the password-hashing primitives satisfying their standard
contract (verification succeeds exactly on the hashed password), login of a
registered user with the correct password returns token claims carrying the
email as subject and an expiry 60 minutes after issuance; login with a
wrong password, or with an unregistered email, returns the 401
invalid-credentials error and never a token. -/
theorem C8_login (hashF : String → String) (verifyF : String → String → Bool)
    (hver : ∀ p, verifyF p (hashF p) = true)
    (hinj : ∀ p q, verifyF p (hashF q) = true → p = q)
    (db : UserDB) (email pw : String) (now : Nat)
    (hreg : dbGet db email = some ⟨email, hashF pw⟩) :
    login ⟨email, pw⟩ verifyF now db = Except.ok ⟨email, now + 3600⟩ ∧
      (∀ wrong, wrong ≠ pw →
        login ⟨email, wrong⟩ verifyF now db =
          Except.error (PyExc.http 401 "Invalid credentials")) ∧
      (∀ other otherPw, dbGet db other = none →
        login ⟨other, otherPw⟩ verifyF now db =
          Except.error (PyExc.http 401 "Invalid credentials")) := by
  refine ⟨?_, ?_, ?_⟩
  · show (match dbGet db email with
      | none => Except.error (PyExc.http 401 "Invalid credentials")
      | some db_user =>
        if verifyF pw db_user.password then Except.ok (create_token email now)
        else Except.error (PyExc.http 401 "Invalid credentials"))
      = Except.ok ⟨email, now + 3600⟩
    rw [hreg]
    simp [hver pw, create_token, ACCESS_TOKEN_EXPIRE_MINUTES]
  · intro wrong hw
    show (match dbGet db email with
      | none => Except.error (PyExc.http 401 "Invalid credentials")
      | some db_user =>
        if verifyF wrong db_user.password then Except.ok (create_token email now)
        else Except.error (PyExc.http 401 "Invalid credentials"))
      = Except.error (PyExc.http 401 "Invalid credentials")
    rw [hreg]
    have hv : verifyF wrong (hashF pw) = false := by
      cases hcase : verifyF wrong (hashF pw)
      · rfl
      · exact absurd (hinj wrong pw hcase) hw
    simp [hv]
  · intro other otherPw hnone
    show (match dbGet db other with
      | none => Except.error (PyExc.http 401 "Invalid credentials")
      | some db_user =>
        if verifyF otherPw db_user.password then Except.ok (create_token other now)
        else Except.error (PyExc.http 401 "Invalid credentials"))
      = Except.error (PyExc.http 401 "Invalid credentials")
    rw [hnone]

/-- C8 (witness): a concrete one-user store with the identity hash model. -/
theorem C8_login_witness :
    login ⟨"user@example.com", "pw1"⟩ (fun p h => p == h) 0
        [("user@example.com", ⟨"user@example.com", "pw1"⟩)] =
      Except.ok ⟨"user@example.com", 3600⟩ :=
  (C8_login (fun p => p) (fun p h => p == h)
    (fun p => by simp)
    (fun p q h => by simpa using h)
    [("user@example.com", ⟨"user@example.com", "pw1"⟩)]
    "user@example.com" "pw1" 0 (by decide)).1

/-- C9 (counterexample): the duplicate check and the insert of `register`
are two separate store operations; interleaving two same-email
registrations as check-check-insert-insert makes both report success, so
check-and-insert is not a single atomic operation as claimed. -/
theorem C9_counterexample :
    ((schedRun "a@b.c" "hpw" [0, 1, 0, 1]
        ([], [⟨0, none⟩, ⟨0, none⟩])).2.map RegThread.outcome)
        = [some true, some true] ∧
      countKey "a@b.c" (schedRun "a@b.c" "hpw" [0, 1, 0, 1]
        ([], [⟨0, none⟩, ⟨0, none⟩])).1 = 1 := by
  constructor <;> decide

/-- C9 (amended): the check and the insert are separate store operations
(see the counterexample), but each handler invocation runs to completion
atomically on the event loop (no await between them); under that
run-to-completion execution, any number of same-email registrations from a
store not containing the email yields exactly one success, conflicts for
all the rest, and exactly one stored record for that email. -/
theorem C9_amended (user : UserAuth) (hashF : String → String) (db : UserDB)
    (n : Nat) (hn : 1 ≤ n) (hfree : dbContains db user.email = false) :
    (runRegisters user hashF n db).2 = true :: List.replicate (n - 1) false ∧
      countKey user.email (runRegisters user hashF n db).1 = 1 := by
  cases n with
  | zero => exact absurd hn (by omega)
  | succ m =>
    have hreg : register user hashF db =
        (Except.ok "Registration successful",
          db ++ [(user.email, ⟨user.email, hashF user.password⟩)]) := by
      simp [register, dbInsert, hfree]
    have hc : dbContains (db ++ [(user.email, ⟨user.email, hashF user.password⟩)])
        user.email = true := dbContains_append_self db _ _
    have hrun := runRegisters_conflict user hashF
      (db ++ [(user.email, ⟨user.email, hashF user.password⟩)]) hc m
    have hmain : runRegisters user hashF (m + 1) db =
        (db ++ [(user.email, ⟨user.email, hashF user.password⟩)],
          true :: List.replicate m false) := by
      simp [runRegisters, hreg, hrun]
    rw [hmain]
    refine ⟨by simp, ?_⟩
    rw [countKey_append_self, countKey_zero user.email db hfree]

/-- C9 (witness for the amended theorem): three same-email registrations on
the empty store. -/
theorem C9_amended_witness :
    (runRegisters ⟨"x@y.z", "pw"⟩ (fun p => p) 3 []).2
        = true :: List.replicate 2 false ∧
      countKey "x@y.z" (runRegisters ⟨"x@y.z", "pw"⟩ (fun p => p) 3 []).1 = 1 :=
  C9_amended ⟨"x@y.z", "pw"⟩ (fun p => p) [] 3 (by decide) (by decide)

/-- C10 (counterexample): a truthy provider response whose text attribute
holds the empty string makes the modification service return the empty
string — the user prompt is replaced by empty provider output even though
no error occurred. -/
theorem C10_counterexample :
    (modify_prompt_with_user_input "keep me" "instr" "task" "label"
        ⟨[Except.ok ⟨true, some ""⟩], []⟩).1 = "" ∧
      ("" : String) ≠ "keep me" := by
  exact ⟨rfl, by decide⟩

/-- C10 (amended): when the provider call returns (without raising) a falsy
response or a response lacking a text attribute, the modification service
returns the original prompt unchanged; but a truthy response carrying an
empty text yields the empty string (see the counterexample), so only the
falsy/text-less cases preserve the prompt. -/
theorem C10_amended (current instructions task label : String)
    (response : GenResponse) (rest : List (Except String GenResponse))
    (calls : List String)
    (h : response.truthy = false ∨ response.text = none) :
    (modify_prompt_with_user_input current instructions task label
      ⟨Except.ok response :: rest, calls⟩).1 = current := by
  obtain ⟨truthy, text⟩ := response
  rcases h with h | h
  · have h2 : truthy = false := h
    subst h2
    rfl
  · have h2 : text = none := h
    subst h2
    cases truthy <;> rfl

/-- C10 (witness for the amended theorem): a falsy, text-less response
preserves the prompt. -/
theorem C10_amended_witness :
    (modify_prompt_with_user_input "orig" "i" "t" "l"
      ⟨[Except.ok ⟨false, none⟩], []⟩).1 = "orig" :=
  C10_amended "orig" "i" "t" "l" ⟨false, none⟩ [] [] (Or.inl rfl)

end PromptRefinement
